import Mathlib

/-!
Shallow embedding of the sidebar-document engine of `src/src/arc.ts` /
`src/unnamed/part_000` (the two files share every definition used here;
`part_000` additionally carries the nested `listTabs`, embedded below as
`listTabsNestedFn`, while `arc.ts` carries the flat one, `listTabsFlat`).

Modelling conventions:
* a TypeScript `string | Object` union entry becomes `Entry α` with
  constructors `.str` / `.obj` (matching the `typeof item === "string"` /
  `"object"` probes of the source);
* optional / nullable fields become `Option _`; a JSON `null` and an absent
  field are collapsed (the source only ever distinguishes them through
  truthiness, which treats both as falsy);
* JavaScript truthiness on optional strings (`x || y`, `if (!x)`) is made
  explicit through `strTruthy` / `jsOr` / `jsOrOpt`: the empty string is
  falsy;
* the opaque `windowTheme` JSON object is represented by an abstract `Nat`
  token (the source never inspects it, only copies it);
* numeric timestamps are `Nat` (their value is never branched on);
* `sidebar.containers` is the `containers` list; the optional chains
  `sidebarSyncState?.container?.value?.orderedSpaceIDs` and
  `firebaseSyncState?.syncData` are collapsed to single `Option` fields,
  which is observationally equivalent because the source only reaches them
  through `?.` chains;
* file I/O is externalised: every operation takes the loaded document and
  returns its boundary result together with `Option SidebarData`, `some d'`
  exactly when the source reaches its single final `saveSidebar(data)` call
  (the only write), `none` on every early-return path;
* `randomUUID().toUpperCase()` and `Date.now()` become explicit parameters
  (fresh-identifier and timestamp inputs).
-/

namespace Arc

/-- JS truthiness of an optional string: `null`/`undefined` and `""` are
falsy; a truthy value is returned as `some`. -/
def strTruthy : Option String → Option String
  | some s => if s = "" then none else some s
  | none => none

/-- JS `a || dflt` for an optional string `a` and a string default. -/
def jsOr (a : Option String) (dflt : String) : String :=
  match strTruthy a with
  | some s => s
  | none => dflt

/-- JS `a || b` for two optional strings (the right operand is returned
as-is when the left is falsy). -/
def jsOrOpt (a b : Option String) : Option String :=
  match strTruthy a with
  | some s => some s
  | none => b

/-- A `string | Object` union slot of the sidebar file (identifier token or
full record). -/
inductive Entry (α : Type) where
  | str (s : String)
  | obj (o : α)
deriving DecidableEq

/-- `data.tab` payload of an item. -/
structure TabData where
  savedURL : Option String := none
  savedTitle : Option String := none
  savedMuteStatus : Option String := none
  timeLastActiveAt : Option Nat := none
deriving DecidableEq

/-- `data.itemContainer` payload: `containerType.spaceItems._0` collapsed to
one optional back-reference (the nesting is only ever written whole). -/
structure ContainerData where
  spaceItems : Option String := none
deriving DecidableEq

/-- `data` field of an item. -/
structure ItemData where
  tab : Option TabData := none
  itemContainer : Option ContainerData := none
deriving DecidableEq

/-- `ItemObject` of the source. -/
structure ItemObject where
  id : String
  title : Option String := none
  parentID : Option String := none
  childrenIds : Option (List String) := none
  createdAt : Option Nat := none
  originatingDevice : Option String := none
  isUnread : Option Bool := none
  data : Option ItemData := none
deriving DecidableEq

/-- `customInfo.iconType`. -/
structure IconType where
  emoji : Option String := none
  icon : Option String := none
deriving DecidableEq

/-- `customInfo`; `windowTheme` is an opaque JSON object, represented by an
abstract token. -/
structure CustomInfo where
  iconType : Option IconType := none
  windowTheme : Option Nat := none
deriving DecidableEq

/-- One slot of `newContainerIDs` (role-marker object or identifier). -/
inductive NewContainerEntry where
  | pinnedMarker
  | unpinnedMarker
  | cid (s : String)
deriving DecidableEq

/-- `SpaceObject` of the source (`profile` collapsed to its only field). -/
structure SpaceObject where
  id : String
  title : String
  profileDefault : Option Bool := none
  containerIDs : Option (List String) := none
  newContainerIDs : Option (List NewContainerEntry) := none
  customInfo : Option CustomInfo := none
deriving DecidableEq

/-- `sidebarSyncState.spaceModels` record slot. -/
structure LocalSpaceModel where
  encodedCKRecordFields : Option (Option String) := none
  value : SpaceObject
deriving DecidableEq

/-- `sidebarSyncState`, with the `container.value.orderedSpaceIDs` chain
collapsed to one optional field. -/
structure SidebarSyncState where
  orderedSpaceIDs : Option (List String) := none
  spaceModels : Option (List (Entry LocalSpaceModel)) := none
deriving DecidableEq

/-- A remote-ledger record slot `{id, lastChangeDate, lastChangedDevice,
value}`. -/
structure Stamped (α : Type) where
  id : String
  lastChangeDate : Nat
  lastChangedDevice : String
  value : α
deriving DecidableEq

/-- `firebaseSyncState.syncData.orderedSpaceIDs`. -/
structure OrderedSpaceIDs where
  value : Option (List String) := none
  lastChangeDate : Option Nat := none
  lastChangedDevice : Option String := none
deriving DecidableEq

/-- `firebaseSyncState.syncData`. -/
structure SyncData where
  orderedSpaceIDs : Option OrderedSpaceIDs := none
  spaceModels : Option (List (Entry (Stamped SpaceObject))) := none
  items : Option (List (Entry (Stamped ItemObject))) := none
deriving DecidableEq

/-- One element of `sidebar.containers`. -/
structure SidebarContainer where
  spaces : Option (List (Entry SpaceObject)) := none
  items : Option (List (Entry ItemObject)) := none
deriving DecidableEq

/-- The whole document (`SidebarData`); `firebaseSyncState?.syncData` is
collapsed to one optional field. -/
structure SidebarData where
  containers : List SidebarContainer
  sidebarSyncState : Option SidebarSyncState := none
  firebaseSyncState : Option SyncData := none
deriving DecidableEq

/-- `data.sidebar?.containers?.[1]`. -/
def container1 (d : SidebarData) : Option SidebarContainer :=
  d.containers[1]?

/-- `data.sidebar?.containers?.[1]?.spaces || []`. -/
def spacesOf (d : SidebarData) : List (Entry SpaceObject) :=
  ((container1 d).bind (·.spaces)).getD []

/-- `data.sidebar?.containers?.[1]?.items || []`. -/
def itemsOf (d : SidebarData) : List (Entry ItemObject) :=
  ((container1 d).bind (·.items)).getD []

/-- The non-marker entries of `containerIDs`:
`(containerIDs || []).filter((id) => id !== "pinned" && id !== "unpinned")`. -/
def structuralIds (sp : SpaceObject) : List String :=
  (sp.containerIDs.getD []).filter (fun i => i ≠ "pinned" && i ≠ "unpinned")

/-- `l[n]` followed by a JS truthiness check (`if (!x)`): out of range and
the empty string both yield `none`. -/
def truthyGet (l : List String) (n : Nat) : Option String :=
  match l.get? n with
  | some s => if s = "" then none else some s
  | none => none

/-- The space-resolution scan shared by `deleteSpace`, `addTab` and the
nested `listTabs` (the source inlines the identical loop in each): the first
object entry with `item.id === q || item.title === q`, together with its
index. -/
def findSpaceIdx : List (Entry SpaceObject) → String → Option (Nat × SpaceObject)
  | [], _ => none
  | .str _ :: es, q => (findSpaceIdx es q).map (fun p => (p.1 + 1, p.2))
  | .obj sp :: es, q =>
    if sp.id = q ∨ sp.title = q then some (0, sp)
    else (findSpaceIdx es q).map (fun p => (p.1 + 1, p.2))

/-- `getDeviceId`: the remote ledger's device tag if truthy, else the first
truthy `originatingDevice` in the primary item list, else `""`. -/
def getDeviceId (d : SidebarData) : String :=
  let fromSync :=
    jsOr ((d.firebaseSyncState.bind (·.orderedSpaceIDs)).bind (·.lastChangedDevice)) ""
  if fromSync = "" then
    match (itemsOf d).findSome?
        (fun e => match e with
          | .obj it => strTruthy it.originatingDevice
          | .str _ => none) with
    | some dev => dev
    | none => ""
  else fromSync

/-- The view record returned by `listSpaces`. -/
structure SpaceView where
  id : String
  title : String
  icon : Option String := none
deriving DecidableEq

/-- `listSpaces` (pure part, on the loaded document): every object entry
with truthy id and title, with `icon = iconType?.emoji || iconType?.icon`. -/
def listSpacesFn (d : SidebarData) : List SpaceView :=
  (spacesOf d).filterMap
    (fun e => match e with
      | .str _ => none
      | .obj sp =>
        if sp.id ≠ "" && sp.title ≠ "" then
          some { id := sp.id, title := sp.title,
                 icon := jsOrOpt ((sp.customInfo.bind (·.iconType)).bind (·.emoji))
                                 ((sp.customInfo.bind (·.iconType)).bind (·.icon)) }
        else none)

/-- Boundary result of a mutating operation: success flag, generated id (if
any) and failure message (if any). -/
structure OpResult where
  success : Bool
  id : Option String := none
  error : Option String := none
deriving DecidableEq

/-- The result of a failed path: no save occurs. -/
def failWith (msg : String) : OpResult × Option SidebarData :=
  ({ success := false, error := some msg }, none)

/-- The error a JS engine raises at `data.sidebar.containers[1].x = ...`
when slot 1 is absent; caught by the operation's `try` block.  (Unreachable
on every path that already located a space or item in slot 1's lists.) -/
def slotError : String := "TypeError: container slot missing"

/-- `createSpace(name, icon)` on the loaded document, with the three
generated identifiers and the timestamp passed in. -/
def createSpaceFn (d : SidebarData) (name icon : String)
    (spaceId pinnedId unpinnedId : String) (ts : Nat) :
    OpResult × Option SidebarData :=
  let deviceId := getDeviceId d
  -- theme scan over existing spaces: first object entry with a windowTheme
  match (spacesOf d).findSome?
      (fun e => match e with
        | .obj sp => sp.customInfo.bind (·.windowTheme)
        | .str _ => none) with
  | none => failWith "Could not find theme template from existing spaces"
  | some theme =>
    -- `icon.includes(".")` distinguishes symbolic icon names from emoji
    let iconObj : IconType :=
      if icon.contains '.' then { icon := some icon } else { emoji := some icon }
    let spaceObj : SpaceObject :=
      { id := spaceId, title := name, profileDefault := some true,
        containerIDs := some ["pinned", pinnedId, "unpinned", unpinnedId],
        newContainerIDs := some [.pinnedMarker, .cid pinnedId, .unpinnedMarker, .cid unpinnedId],
        customInfo := some { iconType := some iconObj, windowTheme := some theme } }
    let contBase : String → ItemObject := fun cid =>
      { id := cid, title := none, parentID := none, childrenIds := some [],
        createdAt := some ts, originatingDevice := some deviceId, isUnread := some false,
        data := some { tab := none,
                       itemContainer := some { spaceItems := some spaceId } } }
    let pinnedCont := contBase pinnedId
    let unpinnedCont := contBase unpinnedId
    match container1 d with
    | none => failWith slotError
    | some c =>
      -- steps 1-2: primary space and item lists
      let c' : SidebarContainer :=
        { c with
          spaces := some ((c.spaces.getD []) ++ [.str spaceId, .obj spaceObj]),
          items := some ((c.items.getD []) ++
            [.str pinnedId, .obj pinnedCont, .str unpinnedId, .obj unpinnedCont]) }
      let d1 : SidebarData := { d with containers := d.containers.set 1 c' }
      -- steps 3-4: local sync mirror (each list only if present)
      let d2 : SidebarData :=
        { d1 with
          sidebarSyncState := d1.sidebarSyncState.map (fun sss =>
            { sss with
              orderedSpaceIDs := sss.orderedSpaceIDs.map (· ++ [spaceId]),
              spaceModels := sss.spaceModels.map (· ++
                [.str spaceId, .obj { encodedCKRecordFields := some none, value := spaceObj }]) }) }
      -- steps 5-7: remote sync mirror (each list only if present)
      let d3 : SidebarData :=
        { d2 with
          firebaseSyncState := d2.firebaseSyncState.map (fun sd =>
            { sd with
              orderedSpaceIDs := sd.orderedSpaceIDs.map (fun o =>
                { value := some ((o.value.getD []) ++ [spaceId]),
                  lastChangeDate := some ts, lastChangedDevice := some deviceId }),
              spaceModels := sd.spaceModels.map (· ++
                [.str spaceId, .obj ⟨spaceId, ts, deviceId, spaceObj⟩]),
              items := sd.items.map (· ++
                [.str pinnedId, .obj ⟨pinnedId, ts, deviceId, pinnedCont⟩,
                 .str unpinnedId, .obj ⟨unpinnedId, ts, deviceId, unpinnedCont⟩]) }) }
      ({ success := true, id := some spaceId }, some d3)

/-- The id carried by an entry (token itself, or the record's id field). -/
def entryItemId : Entry ItemObject → String
  | .str s => s
  | .obj it => it.id

/-- The removal set of `deleteSpace`: the structural container ids plus the
id of every object item whose `parentID` is truthy and contained in them. -/
def removalList (cids : List String) (items : List (Entry ItemObject)) : List String :=
  cids ++ items.filterMap
    (fun e => match e with
      | .obj it =>
        match it.parentID with
        | some p => if p ≠ "" && cids.contains p then some it.id else none
        | none => none
      | .str _ => none)

/-- `deleteSpace(spaceNameOrId)` on the loaded document. -/
def deleteSpaceFn (d : SidebarData) (q : String) : OpResult × Option SidebarData :=
  match findSpaceIdx (spacesOf d) q with
  | none => failWith ("Space not found: " ++ q)
  | some (_, sp) =>
    if sp.id = "" then failWith ("Space not found: " ++ q)  -- `!spaceId`
    else
      let spaceId := sp.id
      let cids := structuralIds sp
      let newSpaces := (spacesOf d).filter
        (fun e => match e with
          | .str s => s ≠ spaceId
          | .obj o => o.id ≠ spaceId)
      let items := itemsOf d
      let toRemove := removalList cids items
      let newItems := items.filter (fun e => !(toRemove.contains (entryItemId e)))
      match container1 d with
      | none => failWith slotError
      | some c =>
        let c' : SidebarContainer := { c with spaces := some newSpaces, items := some newItems }
        let d1 : SidebarData := { d with containers := d.containers.set 1 c' }
        let d2 : SidebarData :=
          { d1 with
            sidebarSyncState := d1.sidebarSyncState.map (fun sss =>
              { sss with
                orderedSpaceIDs := sss.orderedSpaceIDs.map (·.filter (fun i => i ≠ spaceId)),
                spaceModels := sss.spaceModels.map (·.filter
                  (fun e => match e with
                    | .str s => s ≠ spaceId
                    | .obj m => m.value.id ≠ spaceId)) }) }
        let d3 : SidebarData :=
          { d2 with
            firebaseSyncState := d2.firebaseSyncState.map (fun sd =>
              { sd with
                orderedSpaceIDs := sd.orderedSpaceIDs.map (fun o =>
                  { o with value := o.value.map (·.filter (fun i => i ≠ spaceId)) }),
                spaceModels := sd.spaceModels.map (·.filter
                  (fun e => match e with
                    | .str s => s ≠ spaceId
                    | .obj m => m.id ≠ spaceId)),
                items := sd.items.map (·.filter
                  (fun e => match e with
                    | .str s => !(toRemove.contains s)
                    | .obj m => !(toRemove.contains m.id))) }) }
        ({ success := true }, some d3)

/-- The `addTab` loop that appends the new tab id to the child list of the
first object item whose id is the chosen container id. -/
def updateFirstContainer : List (Entry ItemObject) → String → String → List (Entry ItemObject)
  | [], _, _ => []
  | .str s :: es, c, t => .str s :: updateFirstContainer es c t
  | .obj it :: es, c, t =>
    if it.id = c then
      .obj { it with childrenIds := some ((it.childrenIds.getD []) ++ [t]) } :: es
    else .obj it :: updateFirstContainer es c t

/-- The tab record `addTab` builds: `savedTitle` is `title || url`. -/
def builtTabObj (tabId containerId url : String) (title : Option String)
    (deviceId : String) (ts : Nat) : ItemObject :=
  { id := tabId, title := none, parentID := some containerId,
    childrenIds := some [], createdAt := some ts,
    originatingDevice := some deviceId, isUnread := some false,
    data := some
      { tab := some
          { savedURL := some url, savedTitle := some (jsOr title url),
            savedMuteStatus := some "allowAudio", timeLastActiveAt := some ts },
        itemContainer := none } }

/-- `addTab(spaceNameOrId, url, title?, pinned)` on the loaded document,
with the generated tab id and the timestamp passed in. -/
def addTabFn (d : SidebarData) (q url : String) (title : Option String)
    (pinned : Bool) (tabId : String) (ts : Nat) : OpResult × Option SidebarData :=
  match findSpaceIdx (spacesOf d) q with
  | none => failWith ("Space not found: " ++ q)
  | some (_, sp) =>
    if sp.id = "" then failWith ("Space not found: " ++ q)  -- `!spaceId`
    else
      let cids := structuralIds sp
      -- `const containerId = pinned ? containerIds[0] : containerIds[1]`
      match truthyGet cids (if pinned then 0 else 1) with
      | none => failWith ("Container not found for space: " ++ sp.id)
      | some containerId =>
        let deviceId := getDeviceId d
        let tabObj : ItemObject := builtTabObj tabId containerId url title deviceId ts
        match container1 d with
        | none => failWith slotError
        | some c =>
          let items1 := (c.items.getD []) ++ [.str tabId, .obj tabObj]
          let items2 := updateFirstContainer items1 containerId tabId
          let c' : SidebarContainer := { c with items := some items2 }
          let d1 : SidebarData := { d with containers := d.containers.set 1 c' }
          let d2 : SidebarData :=
            { d1 with
              firebaseSyncState := d1.firebaseSyncState.map (fun sd =>
                { sd with items := sd.items.map (· ++
                    [.str tabId, .obj ⟨tabId, ts, deviceId, tabObj⟩]) }) }
          ({ success := true, id := some tabId }, some d2)

/-- The `deleteTab` scan for the first object item with the given id. -/
def firstRecWithId (items : List (Entry ItemObject)) (tid : String) : Option ItemObject :=
  items.findSome?
    (fun e => match e with
      | .obj it => if it.id = tid then some it else none
      | .str _ => none)

/-- The `deleteTab` loop that strips the tab id from the child list of the
first object item whose id is the captured parent id and whose `childrenIds`
field is present (a present array is truthy even when empty). -/
def detachFromParent : List (Entry ItemObject) → String → String → List (Entry ItemObject)
  | [], _, _ => []
  | .str s :: es, p, t => .str s :: detachFromParent es p t
  | .obj it :: es, p, t =>
    if it.id = p ∧ it.childrenIds.isSome then
      .obj { it with childrenIds := it.childrenIds.map (·.filter (fun i => i ≠ t)) } :: es
    else .obj it :: detachFromParent es p t

/-- `deleteTab(tabId)` on the loaded document. -/
def deleteTabFn (d : SidebarData) (tabId : String) : OpResult × Option SidebarData :=
  let items := itemsOf d
  match firstRecWithId items tabId with
  | none => failWith ("Tab not found: " ++ tabId)
  | some it0 =>
    -- `parentId = item.parentID || undefined`
    let parentId := strTruthy it0.parentID
    let newItems := items.filter
      (fun e => match e with
        | .str s => s ≠ tabId
        | .obj o => o.id ≠ tabId)
    match container1 d with
    | none => failWith slotError
    | some c =>
      let items2 :=
        match parentId with
        | some p => detachFromParent newItems p tabId
        | none => newItems
      let c' : SidebarContainer := { c with items := some items2 }
      let d1 : SidebarData := { d with containers := d.containers.set 1 c' }
      let d2 : SidebarData :=
        { d1 with
          firebaseSyncState := d1.firebaseSyncState.map (fun sd =>
            { sd with items := sd.items.map (·.filter
                (fun e => match e with
                  | .str s => s ≠ tabId
                  | .obj m => m.id ≠ tabId)) }) }
      ({ success := true }, some d2)

/-- The identifier lookup of the tree builder: `itemMap.set(item.id, item)`
over every object entry in order, so the last record bearing an id wins. -/
def itemMapGet : List (Entry ItemObject) → String → Option ItemObject
  | [], _ => none
  | e :: es, k =>
    match itemMapGet es k with
    | some it => some it
    | none =>
      match e with
      | .obj it => if it.id = k then some it else none
      | .str _ => none

/-- Classification of the tree builder (`getItemType`): tab payload first,
then container payload, otherwise folder (the source's extra non-empty
`childrenIds` test returns folder on both branches). -/
inductive ItemType where
  | tab
  | container
  | folder
deriving DecidableEq

/-- `item.data?.tab` as an option. -/
def tabPayload (it : ItemObject) : Option TabData :=
  it.data.bind (·.tab)

/-- `item.data?.itemContainer` as an option. -/
def containerPayload (it : ItemObject) : Option ContainerData :=
  it.data.bind (·.itemContainer)

/-- `getItemType` of the nested `listTabs`. -/
def getItemType (it : ItemObject) : ItemType :=
  if (tabPayload it).isSome then .tab
  else if (containerPayload it).isSome then .container
  else .folder

/-- A node of the reconstructed tab/folder tree. -/
inductive TreeNode where
  | tab (id title url : String)
  | folder (id title : String) (children : List TreeNode)

/-- `buildTree(itemId)`: resolve in the lookup (unresolved ids yield `none`
and are skipped by the caller's filter), then produce a Tab leaf, recurse
into a Folder node, or yield `none` for a container.  The source recursion
is unbounded (it diverges on a cyclic document); the `fuel` parameter bounds
the modelled call stack and is instantiated with the item-pool size at the
top level, enough to fully expand any acyclic document. -/
def buildTree (items : List (Entry ItemObject)) : Nat → String → Option TreeNode
  | 0, _ => none
  | Nat.succ fuel, tid =>
    match itemMapGet items tid with
    | none => none
    | some it =>
      match getItemType it with
      | .tab =>
        some (.tab it.id
          (jsOr (jsOrOpt ((tabPayload it).bind (·.savedTitle))
                         ((tabPayload it).bind (·.savedURL))) "Untitled")
          (jsOr ((tabPayload it).bind (·.savedURL)) ""))
      | .container => none
      | .folder =>
        some (.folder it.id (jsOr it.title "Untitled")
          ((it.childrenIds.getD []).filterMap (buildTree items fuel)))

/-- The nested listing view (`SpaceTabs`). -/
structure SpaceTabs where
  spaceId : String
  spaceTitle : String
  pinned : List TreeNode
  unpinned : List TreeNode

/-- The nested `listTabs(spaceNameOrId?)` of `part_000`: resolve the target
space (first object entry when no query), then expand the direct children
of the first/second structural container into the pinned/unpinned lists. -/
def listTabsNestedFn (d : SidebarData) (query : Option String) : Option SpaceTabs :=
  let spaces := spacesOf d
  let items := itemsOf d
  -- the scan tests `!spaceNameOrId ||` before the id/title tests, so a falsy
  -- query (absent or the empty string) selects the first object space
  let target :=
    match strTruthy query with
    | some q => (findSpaceIdx spaces q).map (·.2)
    | none =>
      spaces.findSome? (fun e => match e with | .obj sp => some sp | .str _ => none)
  match target with
  | none => none
  | some sp =>
    let cids := structuralIds sp
    let bucket := fun (idx : Nat) =>
      match cids.get? idx with
      | none => []
      | some cid =>
        match itemMapGet items cid with
        | none => []
        | some cont =>
          (cont.childrenIds.getD []).filterMap (buildTree items items.length)
    some { spaceId := sp.id, spaceTitle := sp.title,
           pinned := bucket 0, unpinned := bucket 1 }

/-- The flat listing's view of one tab (`Tab` of `arc.ts`). -/
structure FlatTab where
  id : String
  title : String
  url : String
  pinned : Bool
  spaceId : String
deriving DecidableEq

/-- The flat `listTabs` container map: `containerToSpace.set` is called for
the first structural id (pinned) then the second (unpinned) of every object
space entry with truthy id and a `containerIDs` field, each id only when
truthy; a later `set` of the same key overwrites an earlier one. -/
def containerToSpace : List (Entry SpaceObject) → String → Option (String × Bool)
  | [], _ => none
  | e :: es, k =>
    match containerToSpace es k with
    | some v => some v
    | none =>
      match e with
      | .str _ => none
      | .obj sp =>
        if sp.id ≠ "" && sp.containerIDs.isSome then
          let cids := structuralIds sp
          let fromPinned :=
            match truthyGet cids 0 with
            | some c0 => if c0 = k then some (sp.id, true) else none
            | none => none
          match truthyGet cids 1 with
          | some c1 => if c1 = k then some (sp.id, false) else fromPinned
          | none => fromPinned
        else none

/-- The flat `listTabs(spaceNameOrId?)` of `arc.ts`: every object item with
a tab payload and a truthy parent that resolves in the container map,
optionally filtered to one space; it does not descend into folders. -/
def listTabsFlat (d : SidebarData) (query : Option String) : List FlatTab :=
  let spaces := spacesOf d
  -- `if (spaceNameOrId)` is a truthiness guard: a falsy query (absent or the
  -- empty string) skips the scan entirely and no filtering happens
  let targetOk :
      Option String × Bool :=  -- (target space id if filtering, scan succeeded)
    match strTruthy query with
    | none => (none, true)
    | some q =>
      match findSpaceIdx spaces q with
      | some (_, sp) => if sp.id = "" then (none, false) else (some sp.id, true)
      | none => (none, false)
  if targetOk.2 = false then []
  else
    (itemsOf d).filterMap
      (fun e => match e with
        | .str _ => none
        | .obj it =>
          if (tabPayload it).isSome then
            match strTruthy it.parentID with
            | none => none
            | some p =>
              match containerToSpace spaces p with
              | none => none
              | some (sid, isPinned) =>
                match targetOk.1 with
                | some target =>
                  if sid ≠ target then none
                  else some { id := it.id,
                              title := jsOr (jsOrOpt ((tabPayload it).bind (·.savedTitle))
                                                     ((tabPayload it).bind (·.savedURL))) "Untitled",
                              url := jsOr ((tabPayload it).bind (·.savedURL)) "",
                              pinned := isPinned, spaceId := sid }
                | none =>
                  some { id := it.id,
                         title := jsOr (jsOrOpt ((tabPayload it).bind (·.savedTitle))
                                                ((tabPayload it).bind (·.savedURL))) "Untitled",
                         url := jsOr ((tabPayload it).bind (·.savedURL)) "",
                         pinned := isPinned, spaceId := sid }
          else none)

/-- Outcome of calling an operation at the collaborator boundary: a value
returned normally, or an exception propagating past the boundary. -/
inductive Outcome (α : Type) where
  | ok (a : α)
  | thrown (e : String)
deriving DecidableEq

/-- `listSpaces` at the boundary: `loadSidebar()` runs with NO surrounding
`try`, so a load fault (missing or unparsable file) propagates. -/
def listSpacesBoundary (load : Except String SidebarData) : Outcome (List SpaceView) :=
  match load with
  | .error e => .thrown e
  | .ok d => .ok (listSpacesFn d)

/-- Flat `listTabs` at the boundary: also no `try` around the load. -/
def listTabsFlatBoundary (load : Except String SidebarData) (query : Option String) :
    Outcome (List FlatTab) :=
  match load with
  | .error e => .thrown e
  | .ok d => .ok (listTabsFlat d query)

/-- Nested `listTabs` at the boundary: also no `try` around the load. -/
def listTabsNestedBoundary (load : Except String SidebarData) (query : Option String) :
    Outcome (Option SpaceTabs) :=
  match load with
  | .error e => .thrown e
  | .ok d => .ok (listTabsNestedFn d query)

/-- `createSpace` at the boundary: `loadSidebar()` and `createBackup()` run
inside the `try`, so their faults are converted to a failure result. -/
def createSpaceBoundary (load : Except String SidebarData) (backup : Except String Unit)
    (name icon spaceId pinnedId unpinnedId : String) (ts : Nat) :
    Outcome (OpResult × Option SidebarData) :=
  match load with
  | .error e => .ok (failWith e)
  | .ok d =>
    match backup with
    | .error e => .ok (failWith e)
    | .ok _ => .ok (createSpaceFn d name icon spaceId pinnedId unpinnedId ts)

/-- `deleteSpace` at the boundary. -/
def deleteSpaceBoundary (load : Except String SidebarData) (backup : Except String Unit)
    (q : String) : Outcome (OpResult × Option SidebarData) :=
  match load with
  | .error e => .ok (failWith e)
  | .ok d =>
    match backup with
    | .error e => .ok (failWith e)
    | .ok _ => .ok (deleteSpaceFn d q)

/-- `addTab` at the boundary. -/
def addTabBoundary (load : Except String SidebarData) (backup : Except String Unit)
    (q url : String) (title : Option String) (pinned : Bool) (tabId : String) (ts : Nat) :
    Outcome (OpResult × Option SidebarData) :=
  match load with
  | .error e => .ok (failWith e)
  | .ok d =>
    match backup with
    | .error e => .ok (failWith e)
    | .ok _ => .ok (addTabFn d q url title pinned tabId ts)

/-- `deleteTab` at the boundary. -/
def deleteTabBoundary (load : Except String SidebarData) (backup : Except String Unit)
    (tabId : String) : Outcome (OpResult × Option SidebarData) :=
  match load with
  | .error e => .ok (failWith e)
  | .ok d =>
    match backup with
    | .error e => .ok (failWith e)
    | .ok _ => .ok (deleteTabFn d tabId)

/-! ### Supporting lemmas -/

theorem findSpaceIdx_ne_nil {l : List (Entry SpaceObject)} {q : String}
    {r : Nat × SpaceObject} (h : findSpaceIdx l q = some r) : l ≠ [] := by
  intro hnil
  subst hnil
  simp [findSpaceIdx] at h

theorem container1_eq_some_of_spaces_ne_nil {d : SidebarData}
    (h : spacesOf d ≠ []) : ∃ c, container1 d = some c := by
  cases hc : container1 d with
  | none => exact absurd (by simp [spacesOf, hc]) h
  | some c => exact ⟨c, rfl⟩

theorem container1_set {d : SidebarData} {c : SidebarContainer}
    (hc : container1 d = some c) (c' : SidebarContainer) :
    container1 { d with containers := d.containers.set 1 c' } = some c' := by
  unfold container1 at hc ⊢
  rw [List.getElem?_set_self', hc]
  rfl

/-! ### C4: createSpace and the theme template -/

/-- C4. `createSpace` fails with the `ThemeTemplateMissing` condition (the
message "Could not find theme template from existing spaces", with no
document saved and hence no record added anywhere) exactly when no object
entry of the primary space list carries a `windowTheme` object. -/
theorem createSpace_theme_template_iff (d : SidebarData)
    (name icon spaceId pinnedId unpinnedId : String) (ts : Nat) :
    createSpaceFn d name icon spaceId pinnedId unpinnedId ts =
      ({ success := false, id := none,
         error := some "Could not find theme template from existing spaces" }, none)
    ↔ ∀ sp : SpaceObject, Entry.obj sp ∈ spacesOf d →
        sp.customInfo.bind (·.windowTheme) = none := by
  constructor
  · intro h
    cases hf : (spacesOf d).findSome?
        (fun e => match e with
          | .obj sp => sp.customInfo.bind (·.windowTheme)
          | .str _ => none) with
    | none =>
      rw [List.findSome?_eq_none_iff] at hf
      intro sp hmem
      exact hf (Entry.obj sp) hmem
    | some th =>
      exfalso
      unfold createSpaceFn at h
      rw [hf] at h
      cases hc : container1 d with
      | none => rw [hc] at h; simp [failWith, slotError] at h
      | some c => rw [hc] at h; simp at h
  · intro hall
    unfold createSpaceFn
    have hf : (spacesOf d).findSome?
        (fun e => match e with
          | .obj sp => sp.customInfo.bind (·.windowTheme)
          | .str _ => none) = none := by
      rw [List.findSome?_eq_none_iff]
      intro e hmem
      cases e with
      | str s => rfl
      | obj sp => exact hall sp hmem
    rw [hf]
    rfl

/-- Witness for C4 at a concrete themeless document. -/
theorem createSpace_theme_template_iff_witness :
    createSpaceFn
      { containers := [{}, { spaces := some [Entry.obj { id := "A", title := "T" }] }] }
      "New" "star" "S" "P" "U" 3 =
      ({ success := false, id := none,
         error := some "Could not find theme template from existing spaces" }, none) := by
  refine (createSpace_theme_template_iff _ "New" "star" "S" "P" "U" 3).mpr ?_
  intro sp hmem
  simp only [spacesOf, container1, List.mem_singleton] at hmem
  cases hmem with
  | head => rfl
  | tail _ hm => cases hm

/-! ### C6: failure results never touch the persisted document -/

/-- C6. For each mutating operation, on every input, the document is saved
(the second component is `some`, the single final write) exactly when the
returned result reports success; every failure path returns with no write,
so a failure leaves the persisted document unchanged. -/
theorem mutations_save_iff_success
    (d : SidebarData) (name icon spaceId pinnedId unpinnedId q url tabId : String)
    (title : Option String) (pinned : Bool) (ts : Nat) :
    ((createSpaceFn d name icon spaceId pinnedId unpinnedId ts).1.success = true ↔
      (createSpaceFn d name icon spaceId pinnedId unpinnedId ts).2.isSome = true) ∧
    ((deleteSpaceFn d q).1.success = true ↔ (deleteSpaceFn d q).2.isSome = true) ∧
    ((addTabFn d q url title pinned tabId ts).1.success = true ↔
      (addTabFn d q url title pinned tabId ts).2.isSome = true) ∧
    ((deleteTabFn d tabId).1.success = true ↔ (deleteTabFn d tabId).2.isSome = true) := by
  refine ⟨?_, ?_, ?_, ?_⟩
  · unfold createSpaceFn
    repeat' split
    all_goals simp [failWith]
  · unfold deleteSpaceFn
    repeat' split
    all_goals simp [failWith]
  · unfold addTabFn
    repeat' split
    all_goals try simp [failWith]
    all_goals (split <;> simp [failWith])
  · unfold deleteTabFn
    repeat' split
    all_goals try simp [failWith]
    all_goals (split <;> simp [failWith])

/-- Witness for C6 at a concrete document and inputs. -/
theorem mutations_save_iff_success_witness :
    ((deleteTabFn { containers := [] } "T").1.success = true ↔
      (deleteTabFn { containers := [] } "T").2.isSome = true) :=
  (mutations_save_iff_success { containers := [] } "n" "i" "S" "P" "U" "q" "u" "T"
    none false 0).2.2.2

/-! ### C5: fault handling at the operation boundary -/

/-- C5 counterexample. `listSpaces` is exposed to the collaborator layer but
wraps no `try` around `loadSidebar()`: a missing document file surfaces as
an exception propagating past the boundary, not as a `{success, error}`
result, contradicting the claim that no fault escapes any exposed
operation. -/
theorem listSpaces_propagates_load_fault :
    listSpacesBoundary (Except.error "ENOENT: no such file or directory") =
      Outcome.thrown "ENOENT: no such file or directory" := rfl

/-- C5 (amended). The four mutating operations catch every load/backup
fault and convert it to a uniform failure result — none of them ever lets
an exception escape — while the read-only listings (`listSpaces` and both
`listTabs` forms) re-raise a load fault past the boundary. -/
theorem boundary_fault_conversion
    (load : Except String SidebarData) (backup : Except String Unit)
    (name icon spaceId pinnedId unpinnedId q url tabId : String)
    (title : Option String) (pinned : Bool) (ts : Nat) (query : Option String) :
    (∃ v, createSpaceBoundary load backup name icon spaceId pinnedId unpinnedId ts =
      Outcome.ok v) ∧
    (∃ v, deleteSpaceBoundary load backup q = Outcome.ok v) ∧
    (∃ v, addTabBoundary load backup q url title pinned tabId ts = Outcome.ok v) ∧
    (∃ v, deleteTabBoundary load backup tabId = Outcome.ok v) ∧
    (∀ e, load = Except.error e →
      (∀ v, createSpaceBoundary load backup name icon spaceId pinnedId unpinnedId ts =
        Outcome.ok v → v = failWith e) ∧
      listSpacesBoundary load = Outcome.thrown e ∧
      listTabsFlatBoundary load query = Outcome.thrown e ∧
      listTabsNestedBoundary load query = Outcome.thrown e) := by
  cases load with
  | error e =>
    cases backup <;>
      simp [createSpaceBoundary, deleteSpaceBoundary, addTabBoundary, deleteTabBoundary,
        listSpacesBoundary, listTabsFlatBoundary, listTabsNestedBoundary]
  | ok d =>
    cases backup <;>
      simp [createSpaceBoundary, deleteSpaceBoundary, addTabBoundary, deleteTabBoundary,
        listSpacesBoundary, listTabsFlatBoundary, listTabsNestedBoundary]

/-- Witness for C5's amended theorem at a concrete failing load. -/
theorem boundary_fault_conversion_witness :
    ∃ v, deleteTabBoundary (Except.error "EACCES") (Except.ok ()) "T" = Outcome.ok v :=
  (boundary_fault_conversion (Except.error "EACCES") (Except.ok ()) "n" "i" "S" "P" "U"
    "q" "u" "T" none false 0 none).2.2.2.1

/-! ### C3: addTab and missing structural containers -/

/-- A space carrying one single structural container id, used to refute the
claim that `addTab` always fails with `ContainerMissing` on a space with
fewer than two structural containers. -/
def oneContainerSpace : SpaceObject :=
  { id := "S1", title := "Solo", containerIDs := some ["pinned", "P1"] }

/-- The single container item of `oneContainerDoc`. -/
def oneContainerItem : ItemObject :=
  { id := "P1", childrenIds := some [],
    data := some { tab := none,
                   itemContainer := some { spaceItems := some "S1" } } }

/-- A document holding `oneContainerSpace` and its single container item. -/
def oneContainerDoc : SidebarData :=
  { containers :=
      [{}, { spaces := some [Entry.str "S1", Entry.obj oneContainerSpace],
             items := some [Entry.str "P1", Entry.obj oneContainerItem] }] }

/-- C3 counterexample. `oneContainerSpace` has exactly one structural
container id, yet `addTab` with `pinned = true` succeeds (the positional
lookup `containerIds[0]` still resolves), so the claim that such a space
fails with `ContainerMissing` for both values of the pinned flag is false. -/
theorem addTab_one_container_pinned_succeeds :
    (structuralIds oneContainerSpace).length = 1 ∧
    (addTabFn oneContainerDoc "Solo" "https://e.com" none true "T1" 5).1 =
      { success := true, id := some "T1", error := none } := by
  constructor
  · rfl
  · rfl

/-- C3 (amended). For a resolvable space, `addTab` reports the
`ContainerMissing` condition exactly when the positionally selected
structural container id — the first if `pinned`, the second if not — is
absent or empty; with zero structural ids this holds for both flags, but a
space with exactly one structural id fails only for `pinned = false`. -/
theorem addTab_container_missing_iff
    (d : SidebarData) (q url : String) (title : Option String) (pinned : Bool)
    (tabId : String) (ts : Nat) (i : Nat) (sp : SpaceObject)
    (hfind : findSpaceIdx (spacesOf d) q = some (i, sp)) (hid : sp.id ≠ "") :
    (addTabFn d q url title pinned tabId ts).1.error =
      some ("Container not found for space: " ++ sp.id)
    ↔ truthyGet (structuralIds sp) (if pinned then 0 else 1) = none := by
  obtain ⟨c, hc⟩ := container1_eq_some_of_spaces_ne_nil (findSpaceIdx_ne_nil hfind)
  simp only [addTabFn, hfind]
  rw [if_neg hid]
  cases htg : truthyGet (structuralIds sp) (if pinned then 0 else 1) with
  | none => simp [failWith]
  | some containerId =>
    simp only [hc]
    simp

/-- Witness for C3's amended theorem: on `oneContainerDoc` with
`pinned = false` the second structural id is absent and `addTab` does fail
with `ContainerMissing`. -/
theorem addTab_container_missing_iff_witness :
    (addTabFn oneContainerDoc "Solo" "https://e.com" none false "T1" 5).1.error =
      some ("Container not found for space: " ++ oneContainerSpace.id) :=
  (addTab_container_missing_iff oneContainerDoc "Solo" "https://e.com" none false
    "T1" 5 1 oneContainerSpace (by decide) (by decide)).mpr (by decide)

/-! ### C8: space resolution by name or id -/

theorem findSpaceIdx_sound :
    ∀ (l : List (Entry SpaceObject)) (q : String) (i : Nat) (sp : SpaceObject),
    findSpaceIdx l q = some (i, sp) →
    l[i]? = some (Entry.obj sp) ∧ (sp.id = q ∨ sp.title = q) ∧
      ∀ j sp', j < i → l[j]? = some (Entry.obj sp') → ¬(sp'.id = q ∨ sp'.title = q) := by
  intro l
  induction l with
  | nil => intro q i sp h; simp [findSpaceIdx] at h
  | cons e es ih =>
    intro q i sp h
    cases e with
    | str s =>
      simp only [findSpaceIdx] at h
      cases hf : findSpaceIdx es q with
      | none => rw [hf] at h; simp at h
      | some p =>
        rw [hf] at h
        simp only [Option.map_some', Option.some_inj, Prod.mk.injEq] at h
        obtain ⟨hi, hsp⟩ := h
        obtain ⟨hget, hmatch, hearlier⟩ := ih q p.1 p.2 hf
        subst hi
        subst hsp
        refine ⟨by simpa using hget, hmatch, ?_⟩
        intro j sp' hj hget'
        cases j with
        | zero => simp at hget'
        | succ j' =>
          exact hearlier j' sp' (by omega) (by simpa using hget')
    | obj sp0 =>
      simp only [findSpaceIdx] at h
      by_cases hm : sp0.id = q ∨ sp0.title = q
      · rw [if_pos hm] at h
        simp only [Option.some_inj, Prod.mk.injEq] at h
        obtain ⟨hi, hsp⟩ := h
        subst hi
        subst hsp
        exact ⟨by simp, hm, by intro j sp' hj _; omega⟩
      · rw [if_neg hm] at h
        cases hf : findSpaceIdx es q with
        | none => rw [hf] at h; simp at h
        | some p =>
          rw [hf] at h
          simp only [Option.map_some', Option.some_inj, Prod.mk.injEq] at h
          obtain ⟨hi, hsp⟩ := h
          obtain ⟨hget, hmatch, hearlier⟩ := ih q p.1 p.2 hf
          subst hi
          subst hsp
          refine ⟨by simpa using hget, hmatch, ?_⟩
          intro j sp' hj hget'
          cases j with
          | zero =>
            simp only [List.getElem?_cons_zero, Option.some_inj] at hget'
            cases hget'
            exact hm
          | succ j' =>
            exact hearlier j' sp' (by omega) (by simpa using hget')

theorem findSpaceIdx_complete :
    ∀ (l : List (Entry SpaceObject)) (q : String) (i : Nat) (sp : SpaceObject),
    l[i]? = some (Entry.obj sp) → (sp.id = q ∨ sp.title = q) →
    ∃ k spk, findSpaceIdx l q = some (k, spk) ∧ k ≤ i := by
  intro l
  induction l with
  | nil => intro q i sp h _; simp at h
  | cons e es ih =>
    intro q i sp hget hm
    cases i with
    | zero =>
      simp only [List.getElem?_cons_zero, Option.some_inj] at hget
      subst hget
      exact ⟨0, sp, by simp [findSpaceIdx, if_pos hm], Nat.le_refl 0⟩
    | succ i' =>
      simp only [List.getElem?_cons_succ] at hget
      obtain ⟨k, spk, hf, hk⟩ := ih q i' sp hget hm
      cases e with
      | str s =>
        exact ⟨k + 1, spk, by simp [findSpaceIdx, hf], by omega⟩
      | obj sp0 =>
        by_cases hm0 : sp0.id = q ∨ sp0.title = q
        · exact ⟨0, sp0, by simp [findSpaceIdx, if_pos hm0], by omega⟩
        · exact ⟨k + 1, spk, by simp [findSpaceIdx, if_neg hm0, hf], by omega⟩

/-- C8. The space-resolution scan: a returned result sits at its storage
index, satisfies the identifier-or-title test, and no earlier object entry
satisfies it; whenever some object entry matches, a result no later than it
is returned; consequently, when two spaces share a title, resolution by
that title never yields the later one. -/
theorem findSpace_first_match_spec (spaces : List (Entry SpaceObject)) (q : String) :
    (∀ i sp, findSpaceIdx spaces q = some (i, sp) →
      spaces[i]? = some (Entry.obj sp) ∧ (sp.id = q ∨ sp.title = q) ∧
        ∀ j sp', j < i → spaces[j]? = some (Entry.obj sp') →
          ¬(sp'.id = q ∨ sp'.title = q)) ∧
    (∀ i sp, spaces[i]? = some (Entry.obj sp) → (sp.id = q ∨ sp.title = q) →
      ∃ k spk, findSpaceIdx spaces q = some (k, spk) ∧ k ≤ i) ∧
    (∀ i j spi spj, i < j →
      spaces[i]? = some (Entry.obj spi) → spaces[j]? = some (Entry.obj spj) →
      spi.title = q → spj.title = q →
      ∀ k spk, findSpaceIdx spaces q = some (k, spk) → k ≠ j) := by
  refine ⟨findSpaceIdx_sound spaces q, findSpaceIdx_complete spaces q, ?_⟩
  intro i j spi spj hij hgi hgj hti htj k spk hfind hkj
  obtain ⟨_, _, hearlier⟩ := findSpaceIdx_sound spaces q k spk hfind
  exact hearlier i spi (by omega) hgi (Or.inr hti)

/-- Witness for C8 on a concrete list with a duplicated title: resolution
by the shared title returns index 0, not the later entry. -/
theorem findSpace_first_match_spec_witness :
    (0 : Nat) < 1 ∧
    ([Entry.obj { id := "A", title := "Dup" },
      Entry.obj { id := "B", title := "Dup" }] : List (Entry SpaceObject)).get? 0 =
        some (Entry.obj { id := "A", title := "Dup" }) ∧
    findSpaceIdx [Entry.obj { id := "A", title := "Dup" },
      Entry.obj { id := "B", title := "Dup" }] "Dup" = some (0, { id := "A", title := "Dup" }) ∧
    ∀ k spk,
      findSpaceIdx [Entry.obj { id := "A", title := "Dup" },
        Entry.obj { id := "B", title := "Dup" }] "Dup" = some (k, spk) → k ≠ 1 := by
  refine ⟨by decide, by decide, by decide, ?_⟩
  exact (findSpace_first_match_spec
    [Entry.obj { id := "A", title := "Dup" }, Entry.obj { id := "B", title := "Dup" }]
    "Dup").2.2 0 1 { id := "A", title := "Dup" } { id := "B", title := "Dup" }
    (by decide) (by decide) (by decide) (by decide) (by decide)

/-! ### C9: tree-builder classification and traversal -/

/-- C9. Item classification follows the priority tab → container → folder
(a payload-free item is a folder even with zero children); `buildTree`
yields a Tab leaf for a tab item, a Folder node recursing over
`childrenIds` for a folder item, nothing for a container item, and an
unresolved id yields nothing, so an unresolved child id is silently dropped
from a folder's child list rather than raising an error. -/
theorem treeBuilder_classification_spec :
    (∀ it : ItemObject,
      (getItemType it = ItemType.tab ↔ (tabPayload it).isSome = true) ∧
      (getItemType it = ItemType.container ↔
        ((tabPayload it).isSome = false ∧ (containerPayload it).isSome = true)) ∧
      (getItemType it = ItemType.folder ↔
        ((tabPayload it).isSome = false ∧ (containerPayload it).isSome = false))) ∧
    (∀ (items : List (Entry ItemObject)) (fuel : Nat) (cid : String),
      itemMapGet items cid = none → buildTree items fuel cid = none) ∧
    (∀ (items : List (Entry ItemObject)) (fuel : Nat) (tid : String) (it : ItemObject),
      itemMapGet items tid = some it → getItemType it = ItemType.tab →
      buildTree items (fuel + 1) tid =
        some (TreeNode.tab it.id
          (jsOr (jsOrOpt ((tabPayload it).bind (·.savedTitle))
                         ((tabPayload it).bind (·.savedURL))) "Untitled")
          (jsOr ((tabPayload it).bind (·.savedURL)) ""))) ∧
    (∀ (items : List (Entry ItemObject)) (fuel : Nat) (tid : String) (it : ItemObject),
      itemMapGet items tid = some it → getItemType it = ItemType.folder →
      buildTree items (fuel + 1) tid =
        some (TreeNode.folder it.id (jsOr it.title "Untitled")
          ((it.childrenIds.getD []).filterMap (buildTree items fuel)))) ∧
    (∀ (items : List (Entry ItemObject)) (fuel : Nat) (tid : String) (it : ItemObject),
      itemMapGet items tid = some it → getItemType it = ItemType.container →
      buildTree items (fuel + 1) tid = none) ∧
    (∀ (items : List (Entry ItemObject)) (fuel : Nat) (l r : List String) (cid : String),
      itemMapGet items cid = none →
      (l ++ cid :: r).filterMap (buildTree items fuel) =
        (l ++ r).filterMap (buildTree items fuel)) := by
  have hskip : ∀ (items : List (Entry ItemObject)) (fuel : Nat) (cid : String),
      itemMapGet items cid = none → buildTree items fuel cid = none := by
    intro items fuel cid h
    cases fuel with
    | zero => rfl
    | succ fuel => simp only [buildTree, h]
  refine ⟨?_, hskip, ?_, ?_, ?_, ?_⟩
  · intro it
    unfold getItemType
    by_cases ht : (tabPayload it).isSome
    · simp [ht]
    · by_cases hc : (containerPayload it).isSome <;>
        simp [ht, hc, Bool.not_eq_true] at *
  · intro items fuel tid it hmap hty
    simp only [buildTree, hmap, hty]
  · intro items fuel tid it hmap hty
    simp only [buildTree, hmap, hty]
  · intro items fuel tid it hmap hty
    simp only [buildTree, hmap, hty]
  · intro items fuel l r cid h
    rw [List.filterMap_append, List.filterMap_append,
      List.filterMap_cons_none (hskip items fuel cid h)]

/-- Witness for C9 at concrete inputs: an empty payload-free item is a
folder, and an unresolved child id disappears from a folder's children. -/
theorem treeBuilder_classification_spec_witness :
    (getItemType { id := "F" } = ItemType.folder ↔
      ((tabPayload { id := "F" }).isSome = false ∧
        (containerPayload { id := "F" }).isSome = false)) ∧
    itemMapGet [] "X" = none ∧
    (["A", "X"].filterMap (buildTree [] 2) = (["A"] ++ []).filterMap (buildTree [] 2)) := by
  refine ⟨(treeBuilder_classification_spec.1 { id := "F" }).2.2, rfl, ?_⟩
  exact treeBuilder_classification_spec.2.2.2.2.2 [] 2 ["A"] [] "X" rfl

/-! ### C1: the removal set of deleteSpace -/

/-- The removal set of `deleteSpace` as a predicate on ids, for a space
whose two structural container ids are `c1` and `c2`: one of the container
ids themselves, or the id of an object item whose parent reference is
nonempty and equal to one of them. -/
def inRemoval (items : List (Entry ItemObject)) (c1 c2 : String) (x : String) : Prop :=
  x = c1 ∨ x = c2 ∨
    ∃ it p, Entry.obj it ∈ items ∧ it.id = x ∧ it.parentID = some p ∧
      p ≠ "" ∧ (p = c1 ∨ p = c2)

theorem removalList_contains_iff (items : List (Entry ItemObject)) (c1 c2 x : String) :
    (removalList [c1, c2] items).contains x = true ↔ inRemoval items c1 c2 x := by
  have hmem : ∀ (l : List String) (y : String), l.contains y = true ↔ y ∈ l :=
    fun l y => by simp
  rw [hmem]
  unfold removalList inRemoval
  rw [List.mem_append]
  constructor
  · rintro (hx | hx)
    · simp only [List.mem_cons, List.not_mem_nil, or_false] at hx
      rcases hx with rfl | rfl
      · exact Or.inl rfl
      · exact Or.inr (Or.inl rfl)
    · rw [List.mem_filterMap] at hx
      obtain ⟨e, he, hfe⟩ := hx
      cases e with
      | str s => simp at hfe
      | obj it =>
        simp only at hfe
        split at hfe
        · next p hp =>
          split at hfe
          · next hcond =>
            simp only [Bool.and_eq_true, decide_eq_true_eq] at hcond
            obtain ⟨hpne, hpc⟩ := hcond
            rw [hmem] at hpc
            simp only [List.mem_cons, List.not_mem_nil, or_false] at hpc
            simp only [Option.some_inj] at hfe
            exact Or.inr (Or.inr ⟨it, p, he, hfe, hp, hpne, hpc⟩)
          · simp at hfe
        · simp at hfe
  · rintro (rfl | rfl | ⟨it, p, hmem', hid, hp, hpne, hpc⟩)
    · exact Or.inl (by simp)
    · exact Or.inl (by simp)
    · right
      rw [List.mem_filterMap]
      refine ⟨Entry.obj it, hmem', ?_⟩
      have hcont : List.contains [c1, c2] p = true := by
        rw [hmem]
        rcases hpc with rfl | rfl
        · simp
        · simp
      simp only [hp, hpne, hcont, hid]
      simp [hpne]

theorem container1_mk_set {d : SidebarData} {c : SidebarContainer}
    (hc : container1 d = some c) (c' : SidebarContainer)
    (sss : Option SidebarSyncState) (fss : Option SyncData) :
    container1 { containers := d.containers.set 1 c', sidebarSyncState := sss,
                 firebaseSyncState := fss } = some c' := by
  unfold container1 at hc ⊢
  simp only [List.getElem?_set_self', hc]
  rfl

/-- C1 (amended). For a resolvable space whose structural container ids are
`c1, c2`, `deleteSpace` succeeds and an entry survives in the primary item
list exactly when it was there before and its id is outside the removal set
{c1, c2} ∪ {ids of items whose parent reference is nonempty and equal to c1
or c2}; in particular every entry whose id is outside that set — such as an
item nested two or more levels below a container — remains in storage. -/
theorem deleteSpace_removes_exactly_direct_children
    (d : SidebarData) (q : String) (i : Nat) (sp : SpaceObject) (c1 c2 : String)
    (hfind : findSpaceIdx (spacesOf d) q = some (i, sp)) (hid : sp.id ≠ "")
    (hcids : structuralIds sp = [c1, c2]) :
    ∃ d', deleteSpaceFn d q = ({ success := true, id := none, error := none }, some d') ∧
      ∀ e : Entry ItemObject,
        e ∈ itemsOf d' ↔ (e ∈ itemsOf d ∧ ¬ inRemoval (itemsOf d) c1 c2 (entryItemId e)) := by
  obtain ⟨c, hc⟩ := container1_eq_some_of_spaces_ne_nil (findSpaceIdx_ne_nil hfind)
  simp only [deleteSpaceFn, hfind]
  rw [if_neg hid]
  simp only [hc, hcids]
  refine ⟨_, rfl, ?_⟩
  intro e
  rw [show itemsOf
      { containers := d.containers.set 1
          { spaces := _, items := some ((itemsOf d).filter
              (fun e => !((removalList [c1, c2] (itemsOf d)).contains (entryItemId e)))) },
        sidebarSyncState := _, firebaseSyncState := _ } =
      (itemsOf d).filter
        (fun e => !((removalList [c1, c2] (itemsOf d)).contains (entryItemId e))) by
    unfold itemsOf
    rw [container1_mk_set hc]
    rfl]
  rw [List.mem_filter]
  constructor
  · rintro ⟨hmem', hpred⟩
    refine ⟨hmem', ?_⟩
    rw [← removalList_contains_iff]
    rw [Bool.not_eq_true'] at hpred
    rw [hpred]
    simp
  · rintro ⟨hmem', hnr⟩
    refine ⟨hmem', ?_⟩
    rw [← removalList_contains_iff] at hnr
    cases hcv : (removalList [c1, c2] (itemsOf d)).contains (entryItemId e) with
    | true => exact absurd hcv hnr
    | false => rfl

/-- The space of the C1 counterexample: its first structural container id
is the empty string. -/
def emptyCidSpace : SpaceObject :=
  { id := "S1", title := "S", containerIDs := some ["pinned", "", "unpinned", "U1"] }

/-- An item whose parent reference is the empty string — equal to the first
structural container id of `emptyCidSpace`. -/
def emptyParentItem : ItemObject :=
  { id := "X1", parentID := some "" }

/-- The C1 counterexample document. -/
def emptyCidDoc : SidebarData :=
  { containers :=
      [{}, { spaces := some [Entry.obj emptyCidSpace],
             items := some [Entry.obj { id := "U1" }, Entry.obj emptyParentItem] }] }

/-- C1 counterexample. In `emptyCidDoc` the item `X1` has `parentID` equal
to the space's first structural container id (the empty string), so the
claim's removal set contains it; yet `deleteSpace` succeeds and `X1`
remains in the primary item list, because the code's truthiness test
(`item.parentID && ...`) skips empty parent references. -/
theorem deleteSpace_empty_parent_counterexample :
    structuralIds emptyCidSpace = ["", "U1"] ∧
    emptyParentItem.parentID = some "" ∧
    (deleteSpaceFn emptyCidDoc "S1").1.success = true ∧
    (deleteSpaceFn emptyCidDoc "S1").2.map
      (fun d' => decide (Entry.obj emptyParentItem ∈ itemsOf d')) = some true := by
  decide

/-- The space of the C1 witness document. -/
def workSpace : SpaceObject :=
  { id := "W1", title := "Work",
    containerIDs := some ["pinned", "PW", "unpinned", "UW"] }

/-- The C1 witness document: containers P/U and one tab directly under U. -/
def workDoc : SidebarData :=
  { containers :=
      [{}, { spaces := some [Entry.str "W1", Entry.obj workSpace],
             items := some [Entry.str "PW", Entry.obj { id := "PW" },
               Entry.str "UW", Entry.obj { id := "UW", childrenIds := some ["TW"] },
               Entry.str "TW", Entry.obj { id := "TW", parentID := some "UW" }] }] }

/-- Witness for C1's amended theorem on the concrete scenario document. -/
theorem deleteSpace_removes_exactly_direct_children_witness :
    ∃ d', deleteSpaceFn workDoc "Work" =
      ({ success := true, id := none, error := none }, some d') ∧
      ∀ e : Entry ItemObject,
        e ∈ itemsOf d' ↔
          (e ∈ itemsOf workDoc ∧ ¬ inRemoval (itemsOf workDoc) "PW" "UW" (entryItemId e)) :=
  deleteSpace_removes_exactly_direct_children workDoc "Work" 1 workSpace
    "PW" "UW" (by decide) (by decide) (by decide)

/-! ### Supporting lemmas for the deleteTab claims -/

/-- Number of object records carrying a given id. -/
def countRec : List (Entry ItemObject) → String → Nat
  | [], _ => 0
  | .str _ :: es, k => countRec es k
  | .obj it :: es, k => (if it.id = k then 1 else 0) + countRec es k

theorem countRec_cons_str (s : String) (es : List (Entry ItemObject)) (k : String) :
    countRec (Entry.str s :: es) k = countRec es k := rfl

theorem countRec_cons_obj (it : ItemObject) (es : List (Entry ItemObject)) (k : String) :
    countRec (Entry.obj it :: es) k = (if it.id = k then 1 else 0) + countRec es k := rfl

theorem detach_cons_str (s : String) (es : List (Entry ItemObject)) (p t : String) :
    detachFromParent (Entry.str s :: es) p t = Entry.str s :: detachFromParent es p t := rfl

/-- The record produced when `deleteTab` strips a child id from a parent. -/
def detached (it : ItemObject) (t : String) : ItemObject :=
  { it with childrenIds := it.childrenIds.map (·.filter (fun i => i ≠ t)) }

theorem detach_cons_obj (it : ItemObject) (es : List (Entry ItemObject)) (p t : String) :
    detachFromParent (Entry.obj it :: es) p t =
      if it.id = p ∧ it.childrenIds.isSome then Entry.obj (detached it t) :: es
      else Entry.obj it :: detachFromParent es p t := by
  rw [detachFromParent, detached]

theorem itemMapGet_cons (e : Entry ItemObject) (es : List (Entry ItemObject)) (k : String) :
    itemMapGet (e :: es) k =
      match itemMapGet es k with
      | some it => some it
      | none =>
        match e with
        | Entry.obj it => if it.id = k then some it else none
        | Entry.str _ => none := rfl

theorem firstRecWithId_mem {items : List (Entry ItemObject)} {tid : String}
    {it : ItemObject} (h : firstRecWithId items tid = some it) :
    Entry.obj it ∈ items ∧ it.id = tid := by
  induction items with
  | nil => simp [firstRecWithId] at h
  | cons e es ih =>
    unfold firstRecWithId at h
    rw [List.findSome?_cons] at h
    cases e with
    | str s =>
      simp only at h
      obtain ⟨hm, hi⟩ := ih h
      exact ⟨List.mem_cons_of_mem _ hm, hi⟩
    | obj it0 =>
      simp only at h
      by_cases hid : it0.id = tid
      · rw [if_pos hid] at h
        simp only [Option.some_inj] at h
        subst h
        exact ⟨List.mem_cons_self _ _, hid⟩
      · rw [if_neg hid] at h
        obtain ⟨hm, hi⟩ := ih h
        exact ⟨List.mem_cons_of_mem _ hm, hi⟩

theorem itemMapGet_mem {items : List (Entry ItemObject)} {k : String}
    {it : ItemObject} (h : itemMapGet items k = some it) :
    Entry.obj it ∈ items ∧ it.id = k := by
  induction items with
  | nil => simp [itemMapGet] at h
  | cons e es ih =>
    rw [itemMapGet_cons] at h
    cases hrec : itemMapGet es k with
    | some it' =>
      rw [hrec] at h
      simp only [Option.some_inj] at h
      subst h
      obtain ⟨hm, hi⟩ := ih hrec
      exact ⟨List.mem_cons_of_mem _ hm, hi⟩
    | none =>
      rw [hrec] at h
      cases e with
      | str s => simp at h
      | obj it0 =>
        simp only at h
        by_cases hid : it0.id = k
        · rw [if_pos hid] at h
          simp only [Option.some_inj] at h
          subst h
          exact ⟨List.mem_cons_self _ _, hid⟩
        · rw [if_neg hid] at h
          simp at h

theorem countRec_eq_zero {l : List (Entry ItemObject)} {k : String}
    (h : countRec l k = 0) : ∀ it : ItemObject, Entry.obj it ∈ l → it.id ≠ k := by
  induction l with
  | nil => intro it hm; cases hm
  | cons e es ih =>
    intro it hm
    cases e with
    | str s =>
      rw [countRec_cons_str] at h
      cases hm with
      | tail _ hm' => exact ih h it hm'
    | obj it0 =>
      rw [countRec_cons_obj] at h
      by_cases hid : it0.id = k
      · rw [if_pos hid] at h; omega
      · rw [if_neg hid] at h
        simp only [Nat.zero_add] at h
        cases hm with
        | head => exact hid
        | tail _ hm' => exact ih h it hm'

theorem countRec_filter_le (l : List (Entry ItemObject)) (p : Entry ItemObject → Bool)
    (k : String) : countRec (l.filter p) k ≤ countRec l k := by
  induction l with
  | nil => exact Nat.le_refl _
  | cons e es ih =>
    rw [List.filter_cons]
    by_cases hp : p e = true
    · rw [if_pos hp]
      cases e with
      | str s => rw [countRec_cons_str, countRec_cons_str]; exact ih
      | obj it =>
        rw [countRec_cons_obj, countRec_cons_obj]
        exact Nat.add_le_add_left ih _
    · rw [if_neg hp]
      cases e with
      | str s => rw [countRec_cons_str]; exact ih
      | obj it =>
        rw [countRec_cons_obj]
        exact Nat.le_trans ih (Nat.le_add_left _ _)

theorem detachFromParent_ids {l : List (Entry ItemObject)} {p t : String}
    {e : Entry ItemObject} (h : e ∈ detachFromParent l p t) :
    ∃ e0 ∈ l, entryItemId e0 = entryItemId e := by
  induction l with
  | nil => cases h
  | cons e0 es ih =>
    cases e0 with
    | str s =>
      rw [detach_cons_str] at h
      cases h with
      | head => exact ⟨Entry.str s, List.mem_cons_self _ _, rfl⟩
      | tail _ h' =>
        obtain ⟨e1, hm, he⟩ := ih h'
        exact ⟨e1, List.mem_cons_of_mem _ hm, he⟩
    | obj it0 =>
      rw [detach_cons_obj] at h
      by_cases hcond : it0.id = p ∧ it0.childrenIds.isSome
      · rw [if_pos hcond] at h
        cases h with
        | head => exact ⟨Entry.obj it0, List.mem_cons_self _ _, rfl⟩
        | tail _ h' => exact ⟨_, List.mem_cons_of_mem _ h', rfl⟩
      · rw [if_neg hcond] at h
        cases h with
        | head => exact ⟨Entry.obj it0, List.mem_cons_self _ _, rfl⟩
        | tail _ h' =>
          obtain ⟨e1, hm, he⟩ := ih h'
          exact ⟨e1, List.mem_cons_of_mem _ hm, he⟩

theorem detachFromParent_detaches {l : List (Entry ItemObject)} {p t : String}
    (hcount : countRec l p ≤ 1) :
    ∀ it : ItemObject, Entry.obj it ∈ detachFromParent l p t → it.id = p →
      t ∉ it.childrenIds.getD [] := by
  induction l with
  | nil => intro it hm; cases hm
  | cons e0 es ih =>
    intro it hm hid
    cases e0 with
    | str s =>
      rw [detach_cons_str] at hm
      rw [countRec_cons_str] at hcount
      cases hm with
      | tail _ hm' => exact ih hcount it hm' hid
    | obj it0 =>
      rw [countRec_cons_obj] at hcount
      rw [detach_cons_obj] at hm
      by_cases hcond : it0.id = p ∧ it0.childrenIds.isSome
      · rw [if_pos hcond] at hm
        cases hm with
        | head =>
          intro htmem
          obtain ⟨l0, hl0⟩ := Option.isSome_iff_exists.mp hcond.2
          rw [show (detached it0 t).childrenIds =
            it0.childrenIds.map (·.filter (fun i => i ≠ t)) from rfl, hl0] at htmem
          simp only [Option.map_some', Option.getD_some] at htmem
          rw [List.mem_filter] at htmem
          simp at htmem
        | tail _ hm' =>
          have hz : countRec es p = 0 := by
            rw [if_pos hcond.1] at hcount; omega
          exact absurd hid (countRec_eq_zero hz it hm')
      · rw [if_neg hcond] at hm
        cases hm with
        | head =>
          intro htmem
          rcases not_and_or.mp hcond with hne | hnone
          · exact hne hid
          · rw [Option.not_isSome_iff_eq_none.mp hnone] at htmem
            cases htmem
        | tail _ hm' =>
          refine ih ?_ it hm' hid
          omega
      
theorem detachFromParent_keeps {l : List (Entry ItemObject)} (p t : String)
    {it : ItemObject} (h : Entry.obj it ∈ l) :
    ∃ it', Entry.obj it' ∈ detachFromParent l p t ∧ it'.id = it.id ∧
      it'.parentID = it.parentID := by
  induction l with
  | nil => cases h
  | cons e0 es ih =>
    cases e0 with
    | str s =>
      rw [detach_cons_str]
      cases h with
      | tail _ h' =>
        obtain ⟨it', hm, hi, hp⟩ := ih h'
        exact ⟨it', List.mem_cons_of_mem _ hm, hi, hp⟩
    | obj it0 =>
      rw [detach_cons_obj]
      by_cases hcond : it0.id = p ∧ it0.childrenIds.isSome
      · rw [if_pos hcond]
        cases h with
        | head =>
          exact ⟨detached it t, List.mem_cons_self _ _, rfl, rfl⟩
        | tail _ h' => exact ⟨it, List.mem_cons_of_mem _ h', rfl, rfl⟩
      · rw [if_neg hcond]
        cases h with
        | head => exact ⟨it, List.mem_cons_self _ _, rfl, rfl⟩
        | tail _ h' =>
          obtain ⟨it', hm, hi, hp⟩ := ih h'
          exact ⟨it', List.mem_cons_of_mem _ hm, hi, hp⟩

/-- All item ids appearing anywhere in a reconstructed tree node. -/
def nodeIds : TreeNode → List String
  | .tab i _ _ => [i]
  | .folder i _ cs => i :: (cs.attach.map (fun c => nodeIds c.1)).flatten
decreasing_by
  simp only [TreeNode.folder.sizeOf_spec]
  have := List.sizeOf_lt_of_mem c.2
  omega

theorem buildTree_ids :
    ∀ (fuel : Nat) (items : List (Entry ItemObject)) (tid : String) (t : TreeNode),
    buildTree items fuel tid = some t →
    ∀ x ∈ nodeIds t, ∃ it : ItemObject, Entry.obj it ∈ items ∧ it.id = x := by
  intro fuel
  induction fuel with
  | zero => intro items tid t h; simp [buildTree] at h
  | succ fuel ih =>
    intro items tid t h x hx
    rw [show buildTree items (fuel + 1) tid =
      (match itemMapGet items tid with
       | none => none
       | some it =>
         match getItemType it with
         | .tab =>
           some (.tab it.id
             (jsOr (jsOrOpt ((tabPayload it).bind (·.savedTitle))
                            ((tabPayload it).bind (·.savedURL))) "Untitled")
             (jsOr ((tabPayload it).bind (·.savedURL)) ""))
         | .container => none
         | .folder =>
           some (.folder it.id (jsOr it.title "Untitled")
             ((it.childrenIds.getD []).filterMap (buildTree items fuel)))) from rfl] at h
    split at h
    · exact Option.noConfusion h
    · rename_i it hm
      split at h
      · simp only [Option.some_inj] at h
        subst h
        simp only [nodeIds, List.mem_singleton] at hx
        subst hx
        exact ⟨it, (itemMapGet_mem hm).1, rfl⟩
      · exact Option.noConfusion h
      · simp only [Option.some_inj] at h
        subst h
        simp only [nodeIds, List.mem_cons, List.mem_flatten, List.mem_map,
          List.mem_attach] at hx
        rcases hx with rfl | ⟨l0, ⟨⟨c, hc⟩, hl0⟩, hxl⟩
        · exact ⟨it, (itemMapGet_mem hm).1, rfl⟩
        · obtain ⟨-, hl0⟩ := hl0
          subst hl0
          obtain ⟨cid, _, hcid⟩ := List.mem_filterMap.mp hc
          exact ih items cid c hcid x hxl

theorem listTabsFlat_source {d : SidebarData} {query : Option String} {t : FlatTab}
    (h : t ∈ listTabsFlat d query) :
    ∃ it : ItemObject, Entry.obj it ∈ itemsOf d ∧ it.id = t.id := by
  simp only [listTabsFlat] at h
  split at h
  · cases h
  · rw [List.mem_filterMap] at h
    obtain ⟨e, he, hfe⟩ := h
    cases e with
    | str s => simp at hfe
    | obj it =>
      simp only at hfe
      split at hfe
      · split at hfe
        · simp at hfe
        · next p hp =>
          split at hfe
          · simp at hfe
          · next sid isPinned hcts =>
            split at hfe
            · next target htgt =>
              split at hfe
              · simp at hfe
              · simp only [Option.some_inj] at hfe
                subst hfe
                exact ⟨it, he, rfl⟩
            · simp only [Option.some_inj] at hfe
              subst hfe
              exact ⟨it, he, rfl⟩
      · simp at hfe

theorem listTabsNested_nodes {d : SidebarData} {query : Option String} {st : SpaceTabs}
    (h : listTabsNestedFn d query = some st) :
    ∀ n, n ∈ st.pinned ++ st.unpinned →
      ∃ cid, buildTree (itemsOf d) (itemsOf d).length cid = some n := by
  simp only [listTabsNestedFn] at h
  split at h
  · cases h
  · next sp _ =>
    simp only [Option.some_inj] at h
    subst h
    intro n hn
    simp only [List.mem_append] at hn
    rcases hn with hn | hn <;>
    · revert hn
      split
      · intro hn; cases hn
      · split
        · intro hn; cases hn
        · intro hn
          obtain ⟨cid, _, hcid⟩ := List.mem_filterMap.mp hn
          exact ⟨cid, hcid⟩

/-! ### C7: deleteTab and the listings -/

/-- C7 (amended). `deleteTab` on an id with no record in the primary item
list fails with `NotFound`; after a successful `deleteTab`, no flat listing
and no node of any nested listing surfaces the deleted id, and — provided
the recorded parent reference is nonempty and at most one record bears the
parent id — the former parent's child list no longer contains the id. -/
theorem deleteTab_listing_spec (d : SidebarData) (tabId : String) :
    (firstRecWithId (itemsOf d) tabId = none →
      deleteTabFn d tabId =
        ({ success := false, id := none, error := some ("Tab not found: " ++ tabId) }, none)) ∧
    (∀ r d', deleteTabFn d tabId = (r, some d') →
      (∀ query t, t ∈ listTabsFlat d' query → t.id ≠ tabId) ∧
      (∀ query st, listTabsNestedFn d' query = some st →
        ∀ n, n ∈ st.pinned ++ st.unpinned → tabId ∉ nodeIds n) ∧
      (∀ it0 p, firstRecWithId (itemsOf d) tabId = some it0 →
        it0.parentID = some p → p ≠ "" → countRec (itemsOf d) p ≤ 1 →
        ∀ it : ItemObject, Entry.obj it ∈ itemsOf d' → it.id = p →
          tabId ∉ it.childrenIds.getD [])) := by
  constructor
  · intro h
    simp only [deleteTabFn, h]
    rfl
  · intro r d' hdel
    simp only [deleteTabFn] at hdel
    split at hdel
    · simp [failWith] at hdel
    · rename_i it0 hfr
      split at hdel
      · simp [failWith] at hdel
      · rename_i c hc
        rw [Prod.mk.injEq] at hdel
        obtain ⟨hr, hd⟩ := hdel
        rw [Option.some_inj] at hd
        have hitems : itemsOf d' =
            (match strTruthy it0.parentID with
             | some p => detachFromParent
                 ((itemsOf d).filter (fun e => match e with
                   | Entry.str s => s ≠ tabId
                   | Entry.obj o => o.id ≠ tabId)) p tabId
             | none => (itemsOf d).filter (fun e => match e with
                 | Entry.str s => s ≠ tabId
                 | Entry.obj o => o.id ≠ tabId)) := by
          rw [← hd]
          unfold itemsOf
          rw [container1_mk_set hc]
          rfl
        have hnoid : ∀ e ∈ itemsOf d', entryItemId e ≠ tabId := by
          intro e he
          rw [hitems] at he
          have hsrc : ∃ e0 ∈ (itemsOf d).filter (fun e => match e with
              | Entry.str s => s ≠ tabId
              | Entry.obj o => o.id ≠ tabId), entryItemId e0 = entryItemId e := by
            cases hpar : strTruthy it0.parentID with
            | some p =>
              rw [hpar] at he
              exact detachFromParent_ids he
            | none =>
              rw [hpar] at he
              exact ⟨e, he, rfl⟩
          obtain ⟨e0, he0, hide⟩ := hsrc
          rw [← hide]
          rw [List.mem_filter] at he0
          obtain ⟨_, hpred⟩ := he0
          cases e0 with
          | str s => simpa [entryItemId] using hpred
          | obj o => simpa [entryItemId] using hpred
        refine ⟨?_, ?_, ?_⟩
        · intro query t ht
          obtain ⟨it, hmem, hid⟩ := listTabsFlat_source ht
          rw [← hid]
          exact hnoid _ hmem
        · intro query st hst n hn htid
          obtain ⟨cid, hbt⟩ := listTabsNested_nodes hst n hn
          obtain ⟨it, hmem, hid⟩ := buildTree_ids _ _ _ _ hbt tabId htid
          exact hnoid _ hmem hid
        · intro it0' p hfr' hp hpne hcount it hit hidp
          rw [hfr] at hfr'
          rw [Option.some_inj] at hfr'
          subst hfr'
          have hpar : strTruthy it0.parentID = some p := by
            rw [hp]
            simp [strTruthy, hpne]
          rw [hitems, hpar] at hit
          exact detachFromParent_detaches
            (Nat.le_trans (countRec_filter_le _ _ _) hcount) it hit hidp

/-- First duplicated record of the parent folder in the C7 counterexample. -/
def dupFolderA : ItemObject :=
  { id := "F", title := some "folder", childrenIds := some ["T"] }

/-- Second duplicated record of the parent folder (same id). -/
def dupFolderB : ItemObject :=
  { id := "F", title := some "folder2", childrenIds := some ["T"] }

/-- The tab under the duplicated folder. -/
def dupTab : ItemObject :=
  { id := "T", parentID := some "F",
    data := some { tab := some { savedURL := some "https://u" }, itemContainer := none } }

/-- The C7 counterexample document: two records share the parent id `F`. -/
def dupParentDoc : SidebarData :=
  { containers :=
      [{}, { items := some [Entry.obj dupFolderA, Entry.obj dupFolderB, Entry.obj dupTab] }] }

/-- C7 counterexample. The tab id `T` is present in the primary item list
and `deleteTab` succeeds, yet a record of the former parent (id `F`) still
lists `T` among its children afterwards: the detach loop updates only the
first record with the parent id, so with duplicated parent records the
claim "the former parent's child list no longer contains it" fails. -/
theorem deleteTab_duplicate_parent_counterexample :
    (tabPayload dupTab).isSome = true ∧
    dupTab.parentID = some "F" ∧
    (deleteTabFn dupParentDoc "T").1.success = true ∧
    (deleteTabFn dupParentDoc "T").2.map (fun d' =>
      (itemsOf d').any (fun e => match e with
        | Entry.obj it => decide (it.id = "F") && decide ("T" ∈ it.childrenIds.getD [])
        | Entry.str _ => false)) = some true := by
  decide

/-- Witness for C7 on its `NotFound` branch at a concrete document. -/
theorem deleteTab_listing_spec_witness :
    firstRecWithId (itemsOf workDoc) "NOPE" = none ∧
    deleteTabFn workDoc "NOPE" =
      ({ success := false, id := none, error := some ("Tab not found: " ++ "NOPE") }, none) :=
  ⟨by decide, (deleteTab_listing_spec workDoc "NOPE").1 (by decide)⟩

/-! ### C10: deleteTab on arbitrary item ids -/

/-- The id carried by a remote-ledger entry. -/
def stampedEntryId : Entry (Stamped ItemObject) → String
  | .str s => s
  | .obj m => m.id

theorem container1_eq_some_of_items_ne_nil {d : SidebarData}
    (h : itemsOf d ≠ []) : ∃ c, container1 d = some c := by
  cases hc : container1 d with
  | none => exact absurd (by simp [itemsOf, hc]) h
  | some c => exact ⟨c, rfl⟩

/-- C10 (amended). `deleteTab` never checks that the id denotes a tab: for
any item id with a record in the primary item list (folder or structural
container included) it succeeds, removes every token and record bearing the
id, strips the id from the remote item mirror when that mirror is present,
detaches the id from the parent record's child list provided the recorded
parent reference is nonempty and at most one record bears the parent id,
and every child of the removed item (with a distinct id) survives with its
dangling parent reference intact. -/
theorem deleteTab_arbitrary_item_spec (d : SidebarData) (itemId : String)
    (it0 : ItemObject) (hfr : firstRecWithId (itemsOf d) itemId = some it0) :
    (deleteTabFn d itemId).1 = { success := true, id := none, error := none } ∧
    ∀ d', (deleteTabFn d itemId).2 = some d' →
      (∀ e ∈ itemsOf d', entryItemId e ≠ itemId) ∧
      (∀ sd : SyncData, d.firebaseSyncState = some sd → ∀ li, sd.items = some li →
        ∃ sd' : SyncData, d'.firebaseSyncState = some sd' ∧
          ∃ li', sd'.items = some li' ∧ ∀ m ∈ li', stampedEntryId m ≠ itemId) ∧
      (∀ p, it0.parentID = some p → p ≠ "" → countRec (itemsOf d) p ≤ 1 →
        ∀ it : ItemObject, Entry.obj it ∈ itemsOf d' → it.id = p →
          itemId ∉ it.childrenIds.getD []) ∧
      (∀ ch : ItemObject, Entry.obj ch ∈ itemsOf d → ch.parentID = some itemId →
        ch.id ≠ itemId →
        ∃ ch', Entry.obj ch' ∈ itemsOf d' ∧ ch'.id = ch.id ∧
          ch'.parentID = some itemId) := by
  have hne : itemsOf d ≠ [] := by
    intro hn
    rw [hn] at hfr
    simp [firstRecWithId] at hfr
  obtain ⟨c, hc⟩ := container1_eq_some_of_items_ne_nil hne
  constructor
  · simp only [deleteTabFn, hfr, hc]
  · intro d' hd
    simp only [deleteTabFn, hfr, hc] at hd
    rw [Option.some_inj] at hd
    have hitems : itemsOf d' =
        (match strTruthy it0.parentID with
         | some p => detachFromParent
             ((itemsOf d).filter (fun e => match e with
               | Entry.str s => s ≠ itemId
               | Entry.obj o => o.id ≠ itemId)) p itemId
         | none => (itemsOf d).filter (fun e => match e with
             | Entry.str s => s ≠ itemId
             | Entry.obj o => o.id ≠ itemId)) := by
      rw [← hd]
      unfold itemsOf
      rw [container1_mk_set hc]
      rfl
    have hnoid : ∀ e ∈ itemsOf d', entryItemId e ≠ itemId := by
      intro e he
      rw [hitems] at he
      have hsrc : ∃ e0 ∈ (itemsOf d).filter (fun e => match e with
          | Entry.str s => s ≠ itemId
          | Entry.obj o => o.id ≠ itemId), entryItemId e0 = entryItemId e := by
        cases hpar : strTruthy it0.parentID with
        | some p =>
          rw [hpar] at he
          exact detachFromParent_ids he
        | none =>
          rw [hpar] at he
          exact ⟨e, he, rfl⟩
      obtain ⟨e0, he0, hide⟩ := hsrc
      rw [← hide]
      rw [List.mem_filter] at he0
      obtain ⟨_, hpred⟩ := he0
      cases e0 with
      | str s => simpa [entryItemId] using hpred
      | obj o => simpa [entryItemId] using hpred
    refine ⟨hnoid, ?_, ?_, ?_⟩
    · intro sd hsd li hli
      have hfss : d'.firebaseSyncState =
          d.firebaseSyncState.map (fun sd =>
            { sd with items := sd.items.map (·.filter (fun e => match e with
                | Entry.str s => s ≠ itemId
                | Entry.obj m => m.id ≠ itemId)) }) := by
        rw [← hd]
      refine ⟨{ sd with items := sd.items.map (·.filter (fun e => match e with
          | Entry.str s => s ≠ itemId
          | Entry.obj m => m.id ≠ itemId)) }, ?_, ?_⟩
      · rw [hfss, hsd]
        rfl
      · refine ⟨li.filter (fun e => match e with
            | Entry.str s => s ≠ itemId
            | Entry.obj m => m.id ≠ itemId), ?_, ?_⟩
        · rw [show ({ sd with items := sd.items.map (·.filter (fun e => match e with
              | Entry.str s => s ≠ itemId
              | Entry.obj m => m.id ≠ itemId)) } : SyncData).items =
            sd.items.map (·.filter (fun e => match e with
              | Entry.str s => s ≠ itemId
              | Entry.obj m => m.id ≠ itemId)) from rfl, hli]
          rfl
        · intro m hm
          rw [List.mem_filter] at hm
          obtain ⟨_, hpred⟩ := hm
          cases m with
          | str s => simpa [stampedEntryId] using hpred
          | obj st => simpa [stampedEntryId] using hpred
    · intro p hp hpne hcount it hit hidp
      have hpar : strTruthy it0.parentID = some p := by
        rw [hp]
        simp [strTruthy, hpne]
      rw [hitems, hpar] at hit
      exact detachFromParent_detaches
        (Nat.le_trans (countRec_filter_le _ _ _) hcount) it hit hidp
    · intro ch hch hchp hchne
      have hch2 : Entry.obj ch ∈ (itemsOf d).filter (fun e => match e with
          | Entry.str s => s ≠ itemId
          | Entry.obj o => o.id ≠ itemId) :=
        List.mem_filter.mpr ⟨hch, by simpa using hchne⟩
      cases hpar : strTruthy it0.parentID with
      | some p =>
        obtain ⟨ch', hm, hi, hpp⟩ := detachFromParent_keeps p itemId hch2
        refine ⟨ch', ?_, hi, by rw [hpp, hchp]⟩
        rw [hitems, hpar]
        exact hm
      | none =>
        refine ⟨ch, ?_, rfl, hchp⟩
        rw [hitems, hpar]
        exact hch2

/-- First duplicated record of the structural container `C`. -/
def dupContA : ItemObject :=
  { id := "C", childrenIds := some ["G"],
    data := some { tab := none, itemContainer := some { spaceItems := some "S" } } }

/-- Second duplicated record of the structural container `C` (same id). -/
def dupContB : ItemObject :=
  { id := "C", childrenIds := some ["G"],
    data := some { tab := none, itemContainer := some { spaceItems := some "S" } } }

/-- A folder (no payload) under the duplicated container. -/
def folderG : ItemObject :=
  { id := "G", parentID := some "C", childrenIds := some ["T2"] }

/-- A tab nested inside the folder. -/
def childT2 : ItemObject :=
  { id := "T2", parentID := some "G",
    data := some { tab := some { savedURL := some "https://v" }, itemContainer := none } }

/-- The C10 counterexample document. -/
def dupContDoc : SidebarData :=
  { containers :=
      [{}, { items := some [Entry.obj dupContA, Entry.obj dupContB,
               Entry.obj folderG, Entry.obj childT2] }] }

/-- C10 counterexample. Deleting the folder id `G` (not a tab) succeeds, but
with two records bearing the parent id `C` only the first is detached: a
record of the parent still lists `G` afterwards, so the claim's
unconditional "detaches the id from its parent's child list" fails. -/
theorem deleteTab_container_duplicate_counterexample :
    (tabPayload folderG).isSome = false ∧
    (deleteTabFn dupContDoc "G").1.success = true ∧
    (deleteTabFn dupContDoc "G").2.map (fun d' =>
      (itemsOf d').any (fun e => match e with
        | Entry.obj it => decide (it.id = "C") && decide ("G" ∈ it.childrenIds.getD [])
        | Entry.str _ => false)) = some true := by
  decide

/-- Witness for C10: deleting a space's structural container record (id
`UW`, not a tab) succeeds. -/
theorem deleteTab_arbitrary_item_spec_witness :
    firstRecWithId (itemsOf workDoc) "UW" =
      some { id := "UW", childrenIds := some ["TW"] } ∧
    (deleteTabFn workDoc "UW").1 = { success := true, id := none, error := none } :=
  ⟨by decide, (deleteTab_arbitrary_item_spec workDoc "UW"
    { id := "UW", childrenIds := some ["TW"] } (by decide)).1⟩

/-! ### Supporting lemmas for C2 -/

/-- The record produced when `addTab` appends the tab to a container. -/
def appended (it : ItemObject) (t : String) : ItemObject :=
  { it with childrenIds := some ((it.childrenIds.getD []) ++ [t]) }

theorem update_cons_str (s : String) (es : List (Entry ItemObject)) (c t : String) :
    updateFirstContainer (Entry.str s :: es) c t =
      Entry.str s :: updateFirstContainer es c t := rfl

theorem update_cons_obj (it : ItemObject) (es : List (Entry ItemObject)) (c t : String) :
    updateFirstContainer (Entry.obj it :: es) c t =
      if it.id = c then Entry.obj (appended it t) :: es
      else Entry.obj it :: updateFirstContainer es c t := rfl

theorem itemMapGet_append (l1 l2 : List (Entry ItemObject)) (k : String) :
    itemMapGet (l1 ++ l2) k =
      match itemMapGet l2 k with
      | some it => some it
      | none => itemMapGet l1 k := by
  induction l1 with
  | nil =>
    rw [List.nil_append]
    cases h : itemMapGet l2 k <;> simp [itemMapGet]
  | cons e es ih =>
    rw [List.cons_append, itemMapGet_cons, ih, itemMapGet_cons]
    cases h2 : itemMapGet l2 k with
    | some x => rfl
    | none => rfl

theorem updateFirstContainer_append {l1 : List (Entry ItemObject)}
    (l2 : List (Entry ItemObject)) {c : String} (t : String)
    (h : 1 ≤ countRec l1 c) :
    updateFirstContainer (l1 ++ l2) c t = updateFirstContainer l1 c t ++ l2 := by
  induction l1 with
  | nil => simp [countRec] at h
  | cons e es ih =>
    cases e with
    | str s =>
      rw [countRec_cons_str] at h
      rw [List.cons_append, update_cons_str, update_cons_str, ih h, List.cons_append]
    | obj it =>
      by_cases hit : it.id = c
      · rw [List.cons_append, update_cons_obj, if_pos hit, update_cons_obj, if_pos hit,
          List.cons_append]
      · rw [countRec_cons_obj, if_neg hit] at h
        rw [List.cons_append, update_cons_obj, if_neg hit, update_cons_obj, if_neg hit,
          ih (by omega), List.cons_append]

theorem mapget_none_iff_countRec_zero (l : List (Entry ItemObject)) (k : String) :
    itemMapGet l k = none ↔ countRec l k = 0 := by
  induction l with
  | nil => simp [itemMapGet, countRec]
  | cons e es ih =>
    rw [itemMapGet_cons]
    cases e with
    | str s =>
      rw [countRec_cons_str, ← ih]
      cases h : itemMapGet es k <;> simp [h]
    | obj it =>
      rw [countRec_cons_obj]
      cases h : itemMapGet es k with
      | some x =>
        constructor
        · intro hh; simp at hh
        · intro hh
          have hz : countRec es k = 0 := by omega
          rw [← ih] at hz
          rw [hz] at h
          cases h
      | none =>
        have hcz : countRec es k = 0 := ih.mp h
        by_cases hit : it.id = k <;> simp [hit, hcz]

theorem mapget_update {l : List (Entry ItemObject)} {k : String} {cont : ItemObject}
    (t : String) (hcount : countRec l k ≤ 1) (hmg : itemMapGet l k = some cont) :
    itemMapGet (updateFirstContainer l k t) k = some (appended cont t) := by
  induction l with
  | nil => simp [itemMapGet] at hmg
  | cons e es ih =>
    cases e with
    | str s =>
      rw [countRec_cons_str] at hcount
      rw [itemMapGet_cons] at hmg
      have hmg' : itemMapGet es k = some cont := by
        cases h : itemMapGet es k with
        | some x => rw [h] at hmg; simpa using hmg
        | none => rw [h] at hmg; simp at hmg
      rw [update_cons_str, itemMapGet_cons, ih hcount hmg']
    | obj it =>
      rw [countRec_cons_obj] at hcount
      rw [itemMapGet_cons] at hmg
      by_cases hit : it.id = k
      · have hz : countRec es k = 0 := by rw [if_pos hit] at hcount; omega
        have hnone : itemMapGet es k = none := (mapget_none_iff_countRec_zero es k).mpr hz
        rw [hnone] at hmg
        simp only [if_pos hit, Option.some_inj] at hmg
        subst hmg
        rw [update_cons_obj, if_pos hit, itemMapGet_cons, hnone]
        simp only [show (appended it t).id = it.id from rfl, if_pos hit]
      · rw [if_neg hit] at hcount
        have hmg' : itemMapGet es k = some cont := by
          cases h : itemMapGet es k with
          | some x => rw [h] at hmg; simpa using hmg
          | none => rw [h] at hmg; simp [hit] at hmg
        rw [update_cons_obj, if_neg hit, itemMapGet_cons, ih (by omega) hmg']

theorem truthyGet_some {l : List String} {n : Nat} {s : String}
    (h : truthyGet l n = some s) : l.get? n = some s ∧ s ≠ "" := by
  unfold truthyGet at h
  split at h
  · next x hg =>
    by_cases hx : x = ""
    · rw [if_pos hx] at h; cases h
    · rw [if_neg hx] at h
      rw [Option.some_inj] at h
      subst h
      exact ⟨hg, hx⟩
  · cases h

/-- The title displayed for a created tab: the given title when nonempty,
otherwise the url when nonempty, otherwise "Untitled". -/
def displayTitle (title : Option String) (url : String) : String :=
  match strTruthy title with
  | some t => t
  | none => if url = "" then "Untitled" else url

theorem jsOr_some_empty (url : String) : jsOr (some url) "" = url := by
  unfold jsOr strTruthy
  by_cases hu : url = "" <;> simp [hu]

theorem displayTitle_eq (title : Option String) (url : String) :
    jsOr (jsOrOpt (some (jsOr title url)) (some url)) "Untitled" =
      displayTitle title url := by
  unfold displayTitle jsOr jsOrOpt strTruthy
  cases title with
  | none => by_cases hu : url = "" <;> simp [hu]
  | some t =>
    by_cases ht : t = "" <;> by_cases hu : url = "" <;> simp [ht, hu]

theorem itemsOf_set_mk {d : SidebarData} {c : SidebarContainer}
    (hc : container1 d = some c) (c' : SidebarContainer)
    (sss : Option SidebarSyncState) (fss : Option SyncData) :
    itemsOf { containers := d.containers.set 1 c', sidebarSyncState := sss,
              firebaseSyncState := fss } = c'.items.getD [] := by
  unfold itemsOf
  rw [container1_mk_set hc]
  rfl

theorem spacesOf_set_mk {d : SidebarData} {c : SidebarContainer}
    (hc : container1 d = some c) (c' : SidebarContainer)
    (sss : Option SidebarSyncState) (fss : Option SyncData) :
    spacesOf { containers := d.containers.set 1 c', sidebarSyncState := sss,
               firebaseSyncState := fss } = c'.spaces.getD [] := by
  unfold spacesOf
  rw [container1_mk_set hc]
  rfl

/-! ### C2: addTab followed by the nested listing -/

/-- C2 (amended). For a nonempty name-or-id query resolving to a space
whose positionally selected container id resolves to exactly one record in
the item pool, and a fresh tab id distinct from that container id, `addTab`
succeeds and the nested listing for the same query shows the new tab as a
direct child of the requested bucket, titled with the given title when
nonempty, else the url when nonempty, else "Untitled".  (The nonempty-query
condition matters: the nested listing treats a falsy query as "first
space", while `addTab` resolves it by id/title.) -/
theorem addTab_then_listTabs_bucket
    (d : SidebarData) (q url : String) (title : Option String) (pinned : Bool)
    (tabId : String) (ts : Nat) (i : Nat) (sp : SpaceObject) (cid : String)
    (hq : q ≠ "")
    (hfind : findSpaceIdx (spacesOf d) q = some (i, sp)) (hid : sp.id ≠ "")
    (hsel : truthyGet (structuralIds sp) (if pinned then 0 else 1) = some cid)
    (hcount : countRec (itemsOf d) cid = 1) (hne : tabId ≠ cid) :
    (addTabFn d q url title pinned tabId ts).1 =
      { success := true, id := some tabId, error := none } ∧
    ∀ d', (addTabFn d q url title pinned tabId ts).2 = some d' →
      ∃ st, listTabsNestedFn d' (some q) = some st ∧ st.spaceId = sp.id ∧
        TreeNode.tab tabId (displayTitle title url) url ∈
          (if pinned then st.pinned else st.unpinned) := by
  obtain ⟨c, hc⟩ := container1_eq_some_of_spaces_ne_nil (findSpaceIdx_ne_nil hfind)
  constructor
  · simp only [addTabFn, hfind]
    rw [if_neg hid]
    simp only [hsel, hc]
  · intro d' hd
    simp only [addTabFn, hfind] at hd
    rw [if_neg hid] at hd
    simp only [hsel, hc] at hd
    rw [Option.some_inj] at hd
    have hitems0 : itemsOf d = c.items.getD [] := by
      unfold itemsOf
      rw [hc]
      rfl
    have hitems' : itemsOf d' =
        updateFirstContainer (itemsOf d) cid tabId ++
          [Entry.str tabId, Entry.obj (builtTabObj tabId cid url title (getDeviceId d) ts)] := by
      rw [← hd, itemsOf_set_mk hc]
      dsimp only
      rw [← hitems0]
      exact updateFirstContainer_append _ tabId (by omega)
    have hspaces' : spacesOf d' = spacesOf d := by
      rw [← hd, spacesOf_set_mk hc]
      dsimp only
      unfold spacesOf
      rw [hc]
      rfl
    have hmg0 : ∃ cont, itemMapGet (itemsOf d) cid = some cont := by
      cases h : itemMapGet (itemsOf d) cid with
      | none => rw [mapget_none_iff_countRec_zero] at h; omega
      | some cont => exact ⟨cont, rfl⟩
    obtain ⟨cont, hmg0⟩ := hmg0
    have hmgU : itemMapGet (itemsOf d') cid = some (appended cont tabId) := by
      rw [hitems', itemMapGet_append]
      have htail : itemMapGet
          [Entry.str tabId, Entry.obj (builtTabObj tabId cid url title (getDeviceId d) ts)]
          cid = none := by
        rw [itemMapGet_cons, itemMapGet_cons]
        simp [itemMapGet, builtTabObj, hne]
      rw [htail]
      show itemMapGet (updateFirstContainer (itemsOf d) cid tabId) cid =
        some (appended cont tabId)
      exact mapget_update tabId (by omega) hmg0
    have hmgT : itemMapGet (itemsOf d') tabId =
        some (builtTabObj tabId cid url title (getDeviceId d) ts) := by
      rw [hitems', itemMapGet_append]
      have htail : itemMapGet
          [Entry.str tabId, Entry.obj (builtTabObj tabId cid url title (getDeviceId d) ts)]
          tabId = some (builtTabObj tabId cid url title (getDeviceId d) ts) := by
        rw [itemMapGet_cons, itemMapGet_cons]
        simp [itemMapGet, builtTabObj]
      rw [htail]
    obtain ⟨hgetsel, hcidne⟩ := truthyGet_some hsel
    have hfuel : (itemsOf d').length =
        (updateFirstContainer (itemsOf d) cid tabId).length + 2 := by
      rw [hitems', List.length_append]
      rfl
    have hbt : buildTree (itemsOf d') (itemsOf d').length tabId =
        some (TreeNode.tab tabId (displayTitle title url) url) := by
      rw [hfuel]
      rw [show buildTree (itemsOf d')
          ((updateFirstContainer (itemsOf d) cid tabId).length + 2) tabId =
        (match itemMapGet (itemsOf d') tabId with
         | none => none
         | some it =>
           match getItemType it with
           | .tab =>
             some (.tab it.id
               (jsOr (jsOrOpt ((tabPayload it).bind (·.savedTitle))
                              ((tabPayload it).bind (·.savedURL))) "Untitled")
               (jsOr ((tabPayload it).bind (·.savedURL)) ""))
           | .container => none
           | .folder =>
             some (.folder it.id (jsOr it.title "Untitled")
               ((it.childrenIds.getD []).filterMap (buildTree (itemsOf d')
                 ((updateFirstContainer (itemsOf d) cid tabId).length + 1))))) from rfl]
      rw [hmgT]
      show some (TreeNode.tab tabId
          (jsOr (jsOrOpt (some (jsOr title url)) (some url)) "Untitled")
          (jsOr (some url) "")) =
        some (TreeNode.tab tabId (displayTitle title url) url)
      rw [displayTitle_eq, jsOr_some_empty]
    refine ⟨({ spaceId := sp.id,
               spaceTitle := sp.title,
               pinned :=
                 (match (structuralIds sp).get? 0 with
                 | none => []
                 | some cid' =>
                   match itemMapGet (itemsOf d') cid' with
                   | none => []
                   | some cont' =>
                     (cont'.childrenIds.getD []).filterMap
                       (buildTree (itemsOf d') (itemsOf d').length)),
               unpinned :=
                 (match (structuralIds sp).get? 1 with
                 | none => []
                 | some cid' =>
                   match itemMapGet (itemsOf d') cid' with
                   | none => []
                   | some cont' =>
                     (cont'.childrenIds.getD []).filterMap
                       (buildTree (itemsOf d') (itemsOf d').length)) } : SpaceTabs),
      ?_, rfl, ?_⟩
    · have hstq : strTruthy (some q) = some q := by
        simp [strTruthy, hq]
      simp only [listTabsNestedFn, hstq, hspaces', hfind, Option.map_some']
    · cases pinned with
      | true =>
        show TreeNode.tab tabId (displayTitle title url) url ∈
          (match (structuralIds sp).get? 0 with
           | none => []
           | some cid' =>
             match itemMapGet (itemsOf d') cid' with
             | none => []
             | some cont' =>
               (cont'.childrenIds.getD []).filterMap
                 (buildTree (itemsOf d') (itemsOf d').length))
        have hg0 : (structuralIds sp).get? 0 = some cid := hgetsel
        rw [hg0]
        show TreeNode.tab tabId (displayTitle title url) url ∈
          (match itemMapGet (itemsOf d') cid with
           | none => []
           | some cont' =>
             (cont'.childrenIds.getD []).filterMap
               (buildTree (itemsOf d') (itemsOf d').length))
        rw [hmgU]
        show TreeNode.tab tabId (displayTitle title url) url ∈
          ((cont.childrenIds.getD [] ++ [tabId]).filterMap
            (buildTree (itemsOf d') (itemsOf d').length))
        rw [List.filterMap_append]
        refine List.mem_append_right _ ?_
        simp only [List.filterMap_cons, List.filterMap_nil, hbt]
        exact List.mem_singleton.mpr rfl
      | false =>
        show TreeNode.tab tabId (displayTitle title url) url ∈
          (match (structuralIds sp).get? 1 with
           | none => []
           | some cid' =>
             match itemMapGet (itemsOf d') cid' with
             | none => []
             | some cont' =>
               (cont'.childrenIds.getD []).filterMap
                 (buildTree (itemsOf d') (itemsOf d').length))
        have hg1 : (structuralIds sp).get? 1 = some cid := hgetsel
        rw [hg1]
        show TreeNode.tab tabId (displayTitle title url) url ∈
          (match itemMapGet (itemsOf d') cid with
           | none => []
           | some cont' =>
             (cont'.childrenIds.getD []).filterMap
               (buildTree (itemsOf d') (itemsOf d').length))
        rw [hmgU]
        show TreeNode.tab tabId (displayTitle title url) url ∈
          ((cont.childrenIds.getD [] ++ [tabId]).filterMap
            (buildTree (itemsOf d') (itemsOf d').length))
        rw [List.filterMap_append]
        refine List.mem_append_right _ ?_
        simp only [List.filterMap_cons, List.filterMap_nil, hbt]
        exact List.mem_singleton.mpr rfl

/-- C2 counterexample. On the scenario document, `addTab` with the explicit
empty title succeeds, but the nested listing shows the new tab titled with
the url, not with the given (empty) title: `savedTitle` is computed as
`title || url`, so an explicitly given empty title is replaced. -/
theorem addTab_empty_title_counterexample :
    (addTabFn workDoc "Work" "https://e.com" (some "") false "TX" 7).1.success = true ∧
    ((addTabFn workDoc "Work" "https://e.com" (some "") false "TX" 7).2.map (fun d2 =>
      listTabsNestedFn d2 (some "Work"))) =
      some (some { spaceId := "W1", spaceTitle := "Work", pinned := [],
                   unpinned := [TreeNode.folder "TW" "Untitled" [],
                                TreeNode.tab "TX" "https://e.com" "https://e.com"] }) ∧
    ("https://e.com" : String) ≠ "" := by
  refine ⟨rfl, rfl, by decide⟩

/-- Witness for C2's amended theorem on the scenario document. -/
theorem addTab_then_listTabs_bucket_witness :
    ("Work" : String) ≠ "" ∧
    findSpaceIdx (spacesOf workDoc) "Work" = some (1, workSpace) ∧
    truthyGet (structuralIds workSpace) (if false then 0 else 1) = some "UW" ∧
    countRec (itemsOf workDoc) "UW" = 1 ∧
    (addTabFn workDoc "Work" "https://e.com" none false "TX" 7).1 =
      { success := true, id := some "TX", error := none } :=
  ⟨by decide, by decide, by decide, by decide,
    (addTab_then_listTabs_bucket workDoc "Work" "https://e.com" none false "TX" 7 1
      workSpace "UW" (by decide) (by decide) (by decide) (by decide) (by decide)
      (by decide)).1⟩

end Arc
